import Mathlib

/-!
# YourWeather backend: request orchestration and cache

A shallow embedding of `backend/src/weather_service.cpp` (with the data types
of `shared/weather_data.h` and the class declarations of
`backend/include/weather_service.h`), followed by theorems about it.

Modelling conventions

* `double` values are only copied and compared with `0.0` by the service; they
  are modelled as rationals (`Double`).  NaN and the infinities have no
  counterpart.
* The expiry of a cache entry is an `int64_t` sum: it is computed over the
  integers and reduced to the `int64_t` range with wrap-around (`wrap64`), which
  is what the compiled program yields when the sum overflows.  Clock readings
  and TTL values are integers; the statistics counters are mathematical
  integers (a counter overflow needs more than `2^31` calls).
* `std::unordered_map<std::string, CacheEntry>` is an association list with
  pairwise distinct keys (`AList`); iteration order is never observed.
* Every reading of a clock is an explicit input (`Env.tGet`, `Env.tPut`,
  `Env.elapsedMs`).
* The API client performs network requests; the service sees it as four
  operations whose results are supplied by `APIClient`.  A result
  `Except.error m` stands for a thrown `std::exception` with `what() = m`.
  Each handler reports the sequence of client operations it invoked.
* A member that the code never initialises holds an arbitrary value, supplied
  as an input (`Env.uninit_success`).
* The current-weather fetch of `api_client.cpp` is embedded over its libraries
  (`HttpLayer`): URL formatting, HTTP transfer and JSON parsing are parameters.
* Mutual exclusion is not modelled: every operation runs to completion on its
  own.
* `processRequest` and the handlers are embedded twice: as they run when none
  of their own statements raises (`processRequest`), and with the statements
  that can raise a `std::exception` as possible exits
  (`processRequestThrowing`); the two agree when no statement raises.
-/

namespace YourWeather

/-! ## Data types (`shared/weather_data.h`) -/

/-- C++ `double`, as far as the service uses it: copied and tested against zero. -/
abbrev Double := Rat

/-- Mirror of `WeatherData::HourlyData`. -/
structure HourlyData where
  timestamp : Int
  temperature : Double
  precipitation_probability : Double
  weather_code : Int
deriving DecidableEq

/-- Mirror of `WeatherData::DailyData`. -/
structure DailyData where
  date : Int
  temp_max : Double
  temp_min : Double
  precipitation_sum : Double
  weather_code : Int
  sunrise : String
  sunset : String
deriving DecidableEq

/-- Mirror of `struct WeatherData`. -/
structure WeatherData where
  temperature : Double
  feels_like : Double
  humidity : Int
  wind_speed : Double
  wind_direction : Int
  pressure : Double
  precipitation : Double
  cloud_cover : Int
  uv_index : Int
  condition : String
  description : String
  weather_code : Int
  icon_name : String
  timestamp : Int
  city : String
  country : String
  latitude : Double
  longitude : Double
  timezone : String
  hourly_forecast : List HourlyData
  daily_forecast : List DailyData
deriving DecidableEq

/-- Underlying value of `WeatherRequest::RequestType`; the `switch` in
`processRequest` has a `default` branch for values outside the enumerators. -/
abbrev RequestType := Int

/-- Enumerator `WeatherRequest::CURRENT_WEATHER = 0`. -/
def CURRENT_WEATHER : RequestType := 0
/-- Enumerator `WeatherRequest::FORECAST = 1`. -/
def FORECAST : RequestType := 1
/-- Enumerator `WeatherRequest::SEARCH_CITY = 2`. -/
def SEARCH_CITY : RequestType := 2
/-- Enumerator `WeatherRequest::GEO_LOCATION = 3`. -/
def GEO_LOCATION : RequestType := 3

/-- Mirror of `struct WeatherRequest`. -/
structure WeatherRequest where
  type : RequestType
  city_name : String
  country_code : String
  days : Int
  latitude : Double
  longitude : Double
  language : String
  units : String
deriving DecidableEq

/-- Mirror of `struct WeatherResponse`. -/
structure WeatherResponse where
  success : Bool
  error_message : String
  current_weather : WeatherData
  forecast : List WeatherData
  city_suggestions : List (String × String)
deriving DecidableEq

/-! ## WeatherCache (`weather_service.h`, `weather_service.cpp` lines 10-60) -/

/-- Mirror of `WeatherCache::CacheEntry`. -/
structure CacheEntry where
  data : WeatherData
  timestamp : Int
  expiry : Int
deriving DecidableEq

/-- The type of `WeatherCache::cache_`: a finite map from strings to entries. -/
abbrev CacheMap := AList (fun _ : String => CacheEntry)

/-- State of a `WeatherCache` object (the mutex is not modelled). -/
structure WeatherCache where
  cache_ : CacheMap
  default_ttl_ : Int

/-- The value of an `int64_t` expression whose mathematical value is `x`:
`x` itself when it lies in `[-2^63, 2^63)`, and otherwise `x` reduced into that
range modulo `2^64` (two's-complement wrap-around of the overflowing sum). -/
def wrap64 (x : Int) : Int :=
  (x + 9223372036854775808) % 18446744073709551616 - 9223372036854775808

/-- Constructor `WeatherCache::WeatherCache(default_ttl)`: an empty map. -/
def WeatherCache.create (default_ttl : Int) : WeatherCache :=
  { cache_ := ∅, default_ttl_ := default_ttl }

/-- The entry stored under `key`, if any (`cache_.find(key)`). -/
def WeatherCache.find (c : WeatherCache) (key : String) : Option CacheEntry :=
  c.cache_.lookup key

/-- Method `WeatherCache::put(key, data, ttl)` executed when `time(nullptr)` reads `now`.
The sum `now + (ttl > 0 ? ttl : default_ttl_)` is an `int64_t` sum. -/
def WeatherCache.put (c : WeatherCache) (key : String) (data : WeatherData) (ttl : Int)
    (now : Int) : WeatherCache :=
  let entry : CacheEntry :=
    { data := data
      timestamp := now
      expiry := wrap64 (now + (if ttl > 0 then ttl else c.default_ttl_)) }
  { c with cache_ := c.cache_.insert key entry }

/-- Method `WeatherCache::get(key, data)` executed when `time(nullptr)` reads `now`.
The first component is `some d` when the C++ method returns `true` after
assigning `d` to the out-parameter and `none` when it returns `false`; the
second component is the cache afterwards. -/
def WeatherCache.get (c : WeatherCache) (key : String) (now : Int) :
    Option WeatherData × WeatherCache :=
  match c.cache_.lookup key with
  | some entry =>
    if now < entry.expiry then (some entry.data, c)
    else (none, { c with cache_ := c.cache_.erase key })
  | none => (none, c)

/-- Method `WeatherCache::clear()`. -/
def WeatherCache.clear (c : WeatherCache) : WeatherCache :=
  { c with cache_ := ∅ }

/-- Method `WeatherCache::cleanup()` executed when `time(nullptr)` reads `now`:
the loop erases each entry with `now >= expiry` and keeps the others. -/
def WeatherCache.cleanup (c : WeatherCache) (now : Int) : WeatherCache :=
  { c with
    cache_ :=
      { entries := c.cache_.entries.filter (fun e => !decide (now ≥ e.2.expiry))
        nodupKeys := c.cache_.nodupKeys.sublist (List.filter_sublist _) } }

/-! ## WeatherService (`weather_service.cpp` lines 62-414) -/

/-- Mirror of `WeatherService::Statistics`. -/
structure Statistics where
  total_requests : Int
  cache_hits : Int
  api_calls : Int
  total_response_time : Int
deriving DecidableEq

/-- State of a `WeatherService` object: the cache it owns, its configuration
and its counters.  The API client is passed separately (`APIClient`). -/
structure WeatherService where
  cache_ : WeatherCache
  cache_enabled_ : Bool
  language_ : String
  units_ : String
  stats_ : Statistics

/-- One invocation of a method of the API client, with its arguments. -/
inductive UpstreamCall where
  | getCoordinates (city country : String)
  | getCurrentWeather (lat lon : Double) (timezone language : String)
  | getForecast (lat lon : Double) (days : Int) (timezone language : String)
  | searchCity (query : String) (limit : Int)
deriving DecidableEq

/-- The four public operations of `class APIClient` (`api_client.h`) as the
service sees them.  `Except.error m` is a thrown `std::exception` whose
`what()` is `m`. -/
structure APIClient where
  getCoordinates : String → String → Except String (Double × Double)
  getCurrentWeather : Double → Double → String → String → Except String WeatherData
  getForecast : Double → Double → Int → String → String → Except String WeatherData
  searchCity : String → Int → Except String (List (String × String))

/-- Everything one `processRequest` call reads from outside the service state.

* `api`: the results of the API client for this call.
* `default_data`: the value built by the constructor `WeatherData::WeatherData()`,
  which `weather_data.h` declares and no source file defines.
* `uninit_success`: the value found in the `success` member of a
  `WeatherResponse response;` declared inside a handler.  `WeatherResponse` has
  no constructor and no member initialiser, so the member is left
  uninitialised.
* `tGet`, `tPut`: what `time(nullptr)` reads inside `WeatherCache::get` and
  inside `WeatherCache::put`.
* `elapsedMs`: `duration.count()`, the difference of the two readings of
  `high_resolution_clock` in milliseconds; the clock is not required to be
  steady, so the difference can be negative. -/
structure Env where
  api : APIClient
  default_data : WeatherData
  uninit_success : Bool
  tGet : Int
  tPut : Int
  elapsedMs : Int

/-- The declaration `WeatherResponse response;` inside a handler. -/
def Env.freshResponse (env : Env) : WeatherResponse :=
  { success := env.uninit_success
    error_message := ""
    current_weather := env.default_data
    forecast := []
    city_suggestions := [] }

/-- What a handler leaves behind: the response it returns (or the exception
that escapes it), the service state, and the API client operations it invoked,
in order. -/
structure Outcome where
  result : Except String WeatherResponse
  service : WeatherService
  calls : List UpstreamCall

/-- What `processRequest` leaves behind. -/
structure Processed where
  response : WeatherResponse
  service : WeatherService
  calls : List UpstreamCall

/-- Constructor `WeatherService::WeatherService()`. -/
def WeatherService.create : WeatherService :=
  { cache_ := WeatherCache.create 300
    cache_enabled_ := true
    language_ := "zh"
    units_ := "metric"
    stats_ := { total_requests := 0, cache_hits := 0, api_calls := 0, total_response_time := 0 } }

/-- Method `WeatherService::initialize()`; `now` is the clock reading of the
`cleanup()` call.  (Setting the client endpoint has no counterpart here.) -/
def WeatherService.initialize (s : WeatherService) (now : Int) : Bool × WeatherService :=
  (true, { s with cache_ := s.cache_.cleanup now })

/-- The Chinese table `zh_cn` of `getConditionFromCode`. -/
def zh_cn : List (Int × String) :=
  [(0, "晴天"), (1, "大部晴朗"), (2, "部分多云"), (3, "阴天"), (45, "有雾"), (48, "有雾"),
   (51, "小雨"), (53, "中雨"), (55, "大雨"), (56, "冻毛毛雨"), (57, "强冻毛毛雨"),
   (61, "小雨"), (63, "中雨"), (65, "大雨"), (66, "冻雨"), (67, "强冻雨"),
   (71, "小雪"), (73, "中雪"), (75, "大雪"), (77, "雪粒"),
   (80, "小阵雨"), (81, "中阵雨"), (82, "强阵雨"), (85, "小阵雪"), (86, "大阵雪"),
   (95, "雷暴"), (96, "小雹雷暴"), (99, "大雹雷暴")]

/-- The English table `en` of `getConditionFromCode`. -/
def en : List (Int × String) :=
  [(0, "Clear sky"), (1, "Mainly clear"), (2, "Partly cloudy"), (3, "Overcast"),
   (45, "Fog"), (48, "Fog"),
   (51, "Light drizzle"), (53, "Moderate drizzle"), (55, "Dense drizzle"),
   (56, "Light freezing drizzle"), (57, "Dense freezing drizzle"),
   (61, "Slight rain"), (63, "Moderate rain"), (65, "Heavy rain"),
   (66, "Light freezing rain"), (67, "Heavy freezing rain"),
   (71, "Slight snow fall"), (73, "Moderate snow fall"), (75, "Heavy snow fall"),
   (77, "Snow grains"),
   (80, "Slight rain showers"), (81, "Moderate rain showers"), (82, "Violent rain showers"),
   (85, "Slight snow showers"), (86, "Heavy snow showers"),
   (95, "Thunderstorm"), (96, "Thunderstorm with slight hail"),
   (99, "Thunderstorm with heavy hail")]

/-- Static method `WeatherService::getConditionFromCode(code, language)`. -/
def getConditionFromCode (code : Int) (language : String) : String :=
  if language = "zh" ∨ language = "zh-CN" then
    match zh_cn.lookup code with
    | some text => text
    | none => "未知"
  else
    match en.lookup code with
    | some text => text
    | none => "Unknown"

/-- Static method `WeatherService::getIconNameFromCode(code, is_day)`. -/
def getIconNameFromCode (code : Int) (is_day : Bool) : String :=
  if code = 0 then (if is_day then "sunny" else "clear-night")
  else if code ≥ 1 ∧ code ≤ 3 then (if is_day then "partly-cloudy-day" else "partly-cloudy-night")
  else if code = 45 ∨ code = 48 then "fog"
  else if code ≥ 51 ∧ code ≤ 57 then "drizzle"
  else if code ≥ 61 ∧ code ≤ 67 then "rain"
  else if code ≥ 71 ∧ code ≤ 77 then "snow"
  else if code ≥ 80 ∧ code ≤ 82 then "rain"
  else if code ≥ 85 ∧ code ≤ 86 then "snow"
  else if code ≥ 95 ∧ code ≤ 99 then "thunderstorm"
  else "unknown"

/-- The cache key built by `handleCurrentWeather`. -/
def currentCacheKey (request : WeatherRequest) : String :=
  "current_" ++ request.city_name ++ "_" ++ request.country_code

/-- The expression `request.language.empty() ? language_ : request.language`. -/
def effectiveLanguage (s : WeatherService) (request : WeatherRequest) : String :=
  if request.language = "" then s.language_ else request.language

/-- The statement `stats_.total_requests++` at the entry of `processRequest`. -/
def WeatherService.countRequest (s : WeatherService) : WeatherService :=
  { s with stats_ := { s.stats_ with total_requests := s.stats_.total_requests + 1 } }

/-- The statement `stats_.total_response_time += duration.count()` before
`processRequest` returns. -/
def WeatherService.addResponseTime (s : WeatherService) (ms : Int) : WeatherService :=
  { s with stats_ := { s.stats_ with total_response_time := s.stats_.total_response_time + ms } }

/-- The statement `stats_.cache_hits++`. -/
def WeatherService.countCacheHit (s : WeatherService) : WeatherService :=
  { s with stats_ := { s.stats_ with cache_hits := s.stats_.cache_hits + 1 } }

/-- The statement `stats_.api_calls++`. -/
def WeatherService.countApiCall (s : WeatherService) : WeatherService :=
  { s with stats_ := { s.stats_ with api_calls := s.stats_.api_calls + 1 } }

/-- The part of `handleCurrentWeather` after the cache attempt (lines 273-301):
resolve the coordinates, fetch, stamp, store, count. -/
def fetchCurrentWeather (env : Env) (s : WeatherService) (request : WeatherRequest) : Outcome :=
  let response := env.freshResponse
  let cache_key := currentCacheKey request
  let coordsCall := UpstreamCall.getCoordinates request.city_name request.country_code
  match env.api.getCoordinates request.city_name request.country_code with
  | .error m => { result := .error m, service := s, calls := [coordsCall] }
  | .ok coords =>
    if coords.1 = 0 ∧ coords.2 = 0 then
      { result := .ok { response with error_message := "无法找到城市坐标" }
        service := s
        calls := [coordsCall] }
    else
      let language := effectiveLanguage s request
      let fetchCall := UpstreamCall.getCurrentWeather coords.1 coords.2 "auto" language
      match env.api.getCurrentWeather coords.1 coords.2 "auto" language with
      | .error m => { result := .error m, service := s, calls := [coordsCall, fetchCall] }
      | .ok fetched =>
        let weather : WeatherData :=
          { fetched with
            city := request.city_name
            country := request.country_code
            latitude := coords.1
            longitude := coords.2 }
        let s1 : WeatherService :=
          if s.cache_enabled_ then { s with cache_ := s.cache_.put cache_key weather 0 env.tPut }
          else s
        { result := .ok { response with current_weather := weather, success := true }
          service := s1.countApiCall
          calls := [coordsCall, fetchCall] }

/-- Method `WeatherService::handleCurrentWeather(request)`. -/
def handleCurrentWeather (env : Env) (s : WeatherService) (request : WeatherRequest) : Outcome :=
  let response := env.freshResponse
  let cache_key := currentCacheKey request
  if s.cache_enabled_ then
    match s.cache_.get cache_key env.tGet with
    | (some cached_data, cache) =>
      { result := .ok { response with current_weather := cached_data, success := true }
        service := ({ s with cache_ := cache } : WeatherService).countCacheHit
        calls := [] }
    | (none, cache) => fetchCurrentWeather env { s with cache_ := cache } request
  else
    fetchCurrentWeather env s request

/-- The loop body of `handleForecast` (lines 330-335): the record built for one day. -/
def projectDaily (env : Env) (s : WeatherService) (day : DailyData) : WeatherData :=
  { env.default_data with
    temperature := day.temp_max
    weather_code := day.weather_code
    icon_name := getIconNameFromCode day.weather_code true
    condition := getConditionFromCode day.weather_code s.language_ }

/-- Method `WeatherService::handleForecast(request)`.  The local `cache_key` is
built and never used; the `if (cache_enabled_)` block is empty. -/
def handleForecast (env : Env) (s : WeatherService) (request : WeatherRequest) : Outcome :=
  let response := env.freshResponse
  let coordsCall := UpstreamCall.getCoordinates request.city_name request.country_code
  match env.api.getCoordinates request.city_name request.country_code with
  | .error m => { result := .error m, service := s, calls := [coordsCall] }
  | .ok coords =>
    if coords.1 = 0 ∧ coords.2 = 0 then
      { result := .ok { response with error_message := "无法找到城市坐标" }
        service := s
        calls := [coordsCall] }
    else
      let days : Int := if request.days > 0 then request.days else 3
      let language := effectiveLanguage s request
      let fetchCall := UpstreamCall.getForecast coords.1 coords.2 days "auto" language
      match env.api.getForecast coords.1 coords.2 days "auto" language with
      | .error m => { result := .error m, service := s, calls := [coordsCall, fetchCall] }
      | .ok fetched =>
        let weather : WeatherData :=
          { fetched with city := request.city_name, country := request.country_code }
        { result := .ok
            { response with
              forecast := response.forecast ++ weather.daily_forecast.map (projectDaily env s)
              current_weather := weather
              success := true }
          service := s.countApiCall
          calls := [coordsCall, fetchCall] }

/-- Method `WeatherService::handleCitySearch(request)`. -/
def handleCitySearch (env : Env) (s : WeatherService) (request : WeatherRequest) : Outcome :=
  let response := env.freshResponse
  if request.city_name = "" then
    { result := .ok { response with error_message := "搜索查询不能为空" }
      service := s
      calls := [] }
  else
    let searchCall := UpstreamCall.searchCity request.city_name 10
    match env.api.searchCity request.city_name 10 with
    | .error m => { result := .error m, service := s, calls := [searchCall] }
    | .ok results =>
      let response1 : WeatherResponse :=
        { response with city_suggestions := results, success := !results.isEmpty }
      let response2 : WeatherResponse :=
        if !response1.success then { response1 with error_message := "未找到匹配的城市" }
        else response1
      { result := .ok response2, service := s, calls := [searchCall] }

/-- Method `WeatherService::handleGeoLocation(request)`. -/
def handleGeoLocation (env : Env) (s : WeatherService) (request : WeatherRequest) : Outcome :=
  let response := env.freshResponse
  if request.latitude = 0 ∧ request.longitude = 0 then
    { result := .ok { response with error_message := "无效的经纬度" }
      service := s
      calls := [] }
  else
    let fetchCall :=
      UpstreamCall.getCurrentWeather request.latitude request.longitude "auto" s.language_
    match env.api.getCurrentWeather request.latitude request.longitude "auto" s.language_ with
    | .error m => { result := .error m, service := s, calls := [fetchCall] }
    | .ok weather =>
      { result := .ok { response with current_weather := weather, success := true }
        service := s.countApiCall
        calls := [fetchCall] }

/-- The `switch` of `processRequest` (lines 221-237), with `response` the
local of `processRequest` after `response.success = false`. -/
def dispatch (env : Env) (s : WeatherService) (request : WeatherRequest)
    (response : WeatherResponse) : Outcome :=
  if request.type = CURRENT_WEATHER then handleCurrentWeather env s request
  else if request.type = FORECAST then handleForecast env s request
  else if request.type = SEARCH_CITY then handleCitySearch env s request
  else if request.type = GEO_LOCATION then handleGeoLocation env s request
  else
    { result := .ok { response with error_message := "未知请求类型" }
      service := s
      calls := [] }

/-- Method `WeatherService::processRequest(request)`. -/
def processRequest (env : Env) (s : WeatherService) (request : WeatherRequest) : Processed :=
  let response0 : WeatherResponse := { env.freshResponse with success := false }
  let outcome := dispatch env s.countRequest request response0
  let response : WeatherResponse :=
    match outcome.result with
    | .ok returned => returned
    | .error m => { response0 with error_message := "处理请求时出错: " ++ m }
  { response := response
    service := outcome.service.addResponseTime env.elapsedMs
    calls := outcome.calls }

/-- Method `WeatherService::setCacheEnabled(enabled)`. -/
def WeatherService.setCacheEnabled (s : WeatherService) (enabled : Bool) : WeatherService :=
  { s with cache_enabled_ := enabled }

/-- Method `WeatherService::setCacheTTL(ttl_seconds)`: a new cache object. -/
def WeatherService.setCacheTTL (s : WeatherService) (ttl_seconds : Int) : WeatherService :=
  { s with cache_ := WeatherCache.create ttl_seconds }

/-- Method `WeatherService::setLanguage(language)`. -/
def WeatherService.setLanguage (s : WeatherService) (language : String) : WeatherService :=
  { s with language_ := language }

/-- Method `WeatherService::setUnits(units)`. -/
def WeatherService.setUnits (s : WeatherService) (units : String) : WeatherService :=
  { s with units_ := units }

/-- Method `WeatherService::getStatistics()`. -/
def WeatherService.getStatistics (s : WeatherService) : Statistics :=
  s.stats_

/-- The service after a caller has processed the given requests one after the
other, each call with its own outside inputs. -/
def processAll : WeatherService → List (Env × WeatherRequest) → WeatherService
  | s, [] => s
  | s, (env, request) :: rest => processAll (processRequest env s request).service rest

/-- The average printed by the `stats` command (`main.cpp` lines 340-343,
`rpc_server.cpp` lines 106-109):
`total_requests > 0 ? total_response_time / total_requests : 0`.
C++ integer division truncates toward zero. -/
def averageResponseTime (stats : Statistics) : Int :=
  if stats.total_requests > 0 then Int.tdiv stats.total_response_time stats.total_requests else 0

/-- The `clear` command of `main.cpp` (lines 410-415) and the `clear cache`
command of `rpc_server.cpp` (lines 110-114), listed in the help texts as
emptying the cache: `setCacheEnabled(false)`, `setCacheEnabled(true)`, then the
printed answer. -/
def clearCommand (s : WeatherService) : String × WeatherService :=
  let s1 := s.setCacheEnabled false
  let s2 := s1.setCacheEnabled true
  ("缓存已清空", s2)

/-! ## APIClient (`api_client.cpp`): the current-weather fetch -/

/-- What `APIClient::getCurrentWeather` rests on outside the repository.

* `buildCurrentWeatherUrl`: the text assembled by `buildCurrentWeatherUrl`
  (the stream formatting of the two doubles is not modelled).
* `performRequest`: the result of `HttpClientImpl::performRequest`, which is
  the body, or the empty string when the transfer fails or the status is not 200.
* `parseCurrent`: what the `try` block of `parseCurrentWeatherJson` does on a
  body.  `none`: `json::parse` throws, the body is not valid JSON.  `some fill`:
  the body parses and the rest of the block (to its end, or to the statement
  that throws) turns the local `data` into `fill data`. -/
structure HttpLayer where
  buildCurrentWeatherUrl : Double → Double → String → String → String
  performRequest : String → String
  parseCurrent : String → Option (WeatherData → WeatherData)

/-- Method `APIClient::parseCurrentWeatherJson(json_str)`: `data` is default
constructed; an exception inside the `try` block is logged by the `catch`
block, and `data` is returned on every path. -/
def HttpLayer.parseCurrentWeatherJson (http : HttpLayer) (default_data : WeatherData)
    (json_str : String) : WeatherData :=
  let data := default_data
  match http.parseCurrent json_str with
  | none => data
  | some fill => fill data

/-- Method `APIClient::getCurrentWeather(lat, lon, timezone, language)`. -/
def HttpLayer.getCurrentWeather (http : HttpLayer) (default_data : WeatherData)
    (lat lon : Double) (timezone language : String) : WeatherData :=
  let url := http.buildCurrentWeatherUrl lat lon timezone language
  let json_str := http.performRequest url
  http.parseCurrentWeatherJson default_data json_str

/-- The API client as the service sees it when its current-weather fetch is the
code above; the other three operations are those of `base`. -/
def HttpLayer.client (http : HttpLayer) (default_data : WeatherData) (base : APIClient) :
    APIClient :=
  { base with
    getCurrentWeather := fun lat lon timezone language =>
      .ok (http.getCurrentWeather default_data lat lon timezone language) }

/-! ## Exceptions raised by the statements of the service itself

`processRequest` and the handlers lock mutexes, build strings and copy
records; each of these statements can raise a `std::exception`
(`std::system_error` from `lock_guard`, `std::bad_alloc` from a copy or a
concatenation).  The definitions below repeat `processRequest` and the
handlers with these statements as possible exits; which of them raise is an
input (`Faults`). -/

/-- The statements of `weather_service.cpp` lines 209-388, other than the calls
of the API client, that can raise a `std::exception`. -/
inductive ThrowPoint where
  /-- Line 213, `lock_guard` ahead of `total_requests++`, outside the `try`. -/
  | entryLock
  /-- Line 235, assignment of the message for an unknown request type. -/
  | unknownMessage
  /-- Line 239, the concatenation inside the `catch` block. -/
  | catchMessage
  /-- Line 246, `lock_guard` ahead of `total_response_time +=`, outside the `try`. -/
  | exitLock
  /-- Line 257, concatenation of the cache key. -/
  | currentKey
  /-- Line 262, inside `WeatherCache::get`: its `lock_guard`, or the copy of the
  stored record into `cached_data`; neither has touched the map. -/
  | cacheGet
  /-- Line 264, `lock_guard` ahead of `cache_hits++`. -/
  | hitLock
  /-- Line 267, copy of the cached record into the response, after `cache_hits++`. -/
  | hitCopy
  /-- Line 276, assignment of the not-found message. -/
  | currentNotFound
  /-- Lines 283-284, copy of city and country into the fetched record. -/
  | currentStamp
  /-- Line 290, inside `WeatherCache::put`: its `lock_guard`, or the copy of the
  record into the local entry, ahead of the insertion into the map. -/
  | cachePut
  /-- Line 294, `lock_guard` ahead of `api_calls++`, after `cache_->put`. -/
  | missLock
  /-- Line 298, copy of the record into the response, after `api_calls++`. -/
  | missCopy
  /-- Lines 307-308, concatenation of the unused forecast cache key. -/
  | forecastKey
  /-- Line 316, assignment of the not-found message. -/
  | forecastNotFound
  /-- Lines 325-326, copy of city and country into the fetched record. -/
  | forecastStamp
  /-- Lines 329-336, the loop filling `response.forecast`. -/
  | forecastLoop
  /-- Line 338, copy of the record into the response. -/
  | forecastCopy
  /-- Line 342, `lock_guard` ahead of `api_calls++`. -/
  | forecastLock
  /-- Line 353, assignment of the empty-query message. -/
  | emptyQuery
  /-- Line 358, copy of the search results into the response. -/
  | searchCopy
  /-- Line 362, assignment of the no-match message. -/
  | noMatch
  /-- Line 372, assignment of the invalid-coordinates message. -/
  | invalidCoords
  /-- Line 379, copy of the record into the response. -/
  | geoCopy
  /-- Line 383, `lock_guard` ahead of `api_calls++`. -/
  | geoLock

/-- For each throw point, `some m` when the statement raises a `std::exception`
with `what() = m` once it is reached, `none` when it completes. -/
abbrev Faults := ThrowPoint → Option String

/-- No statement of the service raises. -/
def noFaults : Faults := fun _ => none

/-- The statement at `point`, reached in state `s` after the API client
operations `calls`: when it raises, the function is left with that state;
otherwise execution goes on with `rest`. -/
def throwAt (faults : Faults) (point : ThrowPoint) (s : WeatherService)
    (calls : List UpstreamCall) (rest : Outcome) : Outcome :=
  match faults point with
  | some m => { result := .error m, service := s, calls := calls }
  | none => rest

/-- The part of `handleCurrentWeather` after the cache attempt (lines 273-301),
with the statements that can raise. -/
def fetchCurrentWeatherThrowing (faults : Faults) (env : Env) (s : WeatherService)
    (request : WeatherRequest) : Outcome :=
  let response := env.freshResponse
  let cache_key := currentCacheKey request
  let coordsCall := UpstreamCall.getCoordinates request.city_name request.country_code
  match env.api.getCoordinates request.city_name request.country_code with
  | .error m => { result := .error m, service := s, calls := [coordsCall] }
  | .ok coords =>
    if coords.1 = 0 ∧ coords.2 = 0 then
      throwAt faults .currentNotFound s [coordsCall]
        { result := .ok { response with error_message := "无法找到城市坐标" }
          service := s
          calls := [coordsCall] }
    else
      let language := effectiveLanguage s request
      let fetchCall := UpstreamCall.getCurrentWeather coords.1 coords.2 "auto" language
      match env.api.getCurrentWeather coords.1 coords.2 "auto" language with
      | .error m => { result := .error m, service := s, calls := [coordsCall, fetchCall] }
      | .ok fetched =>
        throwAt faults .currentStamp s [coordsCall, fetchCall]
          (let weather : WeatherData :=
            { fetched with
              city := request.city_name
              country := request.country_code
              latitude := coords.1
              longitude := coords.2 }
          let afterPut : WeatherService → Outcome := fun s1 =>
            throwAt faults .missLock s1 [coordsCall, fetchCall]
              (throwAt faults .missCopy s1.countApiCall [coordsCall, fetchCall]
                { result := .ok { response with current_weather := weather, success := true }
                  service := s1.countApiCall
                  calls := [coordsCall, fetchCall] })
          if s.cache_enabled_ then
            throwAt faults .cachePut s [coordsCall, fetchCall]
              (afterPut { s with cache_ := s.cache_.put cache_key weather 0 env.tPut })
          else afterPut s)

/-- Method `WeatherService::handleCurrentWeather(request)`, with the statements
that can raise. -/
def handleCurrentWeatherThrowing (faults : Faults) (env : Env) (s : WeatherService)
    (request : WeatherRequest) : Outcome :=
  let response := env.freshResponse
  throwAt faults .currentKey s []
    (let cache_key := currentCacheKey request
    if s.cache_enabled_ then
      throwAt faults .cacheGet s []
        (match s.cache_.get cache_key env.tGet with
        | (some cached_data, cache) =>
          throwAt faults .hitLock { s with cache_ := cache } []
            (throwAt faults .hitCopy ({ s with cache_ := cache } : WeatherService).countCacheHit []
              { result := .ok { response with current_weather := cached_data, success := true }
                service := ({ s with cache_ := cache } : WeatherService).countCacheHit
                calls := [] })
        | (none, cache) => fetchCurrentWeatherThrowing faults env { s with cache_ := cache } request)
    else
      fetchCurrentWeatherThrowing faults env s request)

/-- Method `WeatherService::handleForecast(request)`, with the statements that
can raise. -/
def handleForecastThrowing (faults : Faults) (env : Env) (s : WeatherService)
    (request : WeatherRequest) : Outcome :=
  let response := env.freshResponse
  throwAt faults .forecastKey s []
    (let coordsCall := UpstreamCall.getCoordinates request.city_name request.country_code
    match env.api.getCoordinates request.city_name request.country_code with
    | .error m => { result := .error m, service := s, calls := [coordsCall] }
    | .ok coords =>
      if coords.1 = 0 ∧ coords.2 = 0 then
        throwAt faults .forecastNotFound s [coordsCall]
          { result := .ok { response with error_message := "无法找到城市坐标" }
            service := s
            calls := [coordsCall] }
      else
        let days : Int := if request.days > 0 then request.days else 3
        let language := effectiveLanguage s request
        let fetchCall := UpstreamCall.getForecast coords.1 coords.2 days "auto" language
        match env.api.getForecast coords.1 coords.2 days "auto" language with
        | .error m => { result := .error m, service := s, calls := [coordsCall, fetchCall] }
        | .ok fetched =>
          throwAt faults .forecastStamp s [coordsCall, fetchCall]
            (let weather : WeatherData :=
              { fetched with city := request.city_name, country := request.country_code }
            throwAt faults .forecastLoop s [coordsCall, fetchCall]
              (throwAt faults .forecastCopy s [coordsCall, fetchCall]
                (throwAt faults .forecastLock s [coordsCall, fetchCall]
                  { result := .ok
                      { response with
                        forecast :=
                          response.forecast ++ weather.daily_forecast.map (projectDaily env s)
                        current_weather := weather
                        success := true }
                    service := s.countApiCall
                    calls := [coordsCall, fetchCall] }))))

/-- Method `WeatherService::handleCitySearch(request)`, with the statements that
can raise. -/
def handleCitySearchThrowing (faults : Faults) (env : Env) (s : WeatherService)
    (request : WeatherRequest) : Outcome :=
  let response := env.freshResponse
  if request.city_name = "" then
    throwAt faults .emptyQuery s []
      { result := .ok { response with error_message := "搜索查询不能为空" }
        service := s
        calls := [] }
  else
    let searchCall := UpstreamCall.searchCity request.city_name 10
    match env.api.searchCity request.city_name 10 with
    | .error m => { result := .error m, service := s, calls := [searchCall] }
    | .ok results =>
      throwAt faults .searchCopy s [searchCall]
        (let response1 : WeatherResponse :=
          { response with city_suggestions := results, success := !results.isEmpty }
        if !response1.success then
          throwAt faults .noMatch s [searchCall]
            { result := .ok { response1 with error_message := "未找到匹配的城市" }
              service := s
              calls := [searchCall] }
        else
          { result := .ok response1, service := s, calls := [searchCall] })

/-- Method `WeatherService::handleGeoLocation(request)`, with the statements
that can raise. -/
def handleGeoLocationThrowing (faults : Faults) (env : Env) (s : WeatherService)
    (request : WeatherRequest) : Outcome :=
  let response := env.freshResponse
  if request.latitude = 0 ∧ request.longitude = 0 then
    throwAt faults .invalidCoords s []
      { result := .ok { response with error_message := "无效的经纬度" }
        service := s
        calls := [] }
  else
    let fetchCall :=
      UpstreamCall.getCurrentWeather request.latitude request.longitude "auto" s.language_
    match env.api.getCurrentWeather request.latitude request.longitude "auto" s.language_ with
    | .error m => { result := .error m, service := s, calls := [fetchCall] }
    | .ok weather =>
      throwAt faults .geoCopy s [fetchCall]
        (throwAt faults .geoLock s [fetchCall]
          { result := .ok { response with current_weather := weather, success := true }
            service := s.countApiCall
            calls := [fetchCall] })

/-- The `switch` of `processRequest` (lines 221-237), with the statements that
can raise; `response` is the local of `processRequest` after
`response.success = false`. -/
def dispatchThrowing (faults : Faults) (env : Env) (s : WeatherService)
    (request : WeatherRequest) (response : WeatherResponse) : Outcome :=
  if request.type = CURRENT_WEATHER then handleCurrentWeatherThrowing faults env s request
  else if request.type = FORECAST then handleForecastThrowing faults env s request
  else if request.type = SEARCH_CITY then handleCitySearchThrowing faults env s request
  else if request.type = GEO_LOCATION then handleGeoLocationThrowing faults env s request
  else
    throwAt faults .unknownMessage s []
      { result := .ok { response with error_message := "未知请求类型" }
        service := s
        calls := [] }

/-- Method `WeatherService::processRequest(request)`, with the statements that
can raise.  A result `Except.error m` is an exception that leaves
`processRequest` and reaches its caller: the two `lock_guard` statements stand
outside the `try` block and the concatenation stands inside the `catch` block;
an exception that leaves the `try` block is caught. -/
def processRequestThrowing (faults : Faults) (env : Env) (s : WeatherService)
    (request : WeatherRequest) : Outcome :=
  throwAt faults .entryLock s []
    (let response0 : WeatherResponse := { env.freshResponse with success := false }
    let outcome := dispatchThrowing faults env s.countRequest request response0
    let caught : Outcome :=
      match outcome.result with
      | .ok returned => { outcome with result := .ok returned }
      | .error m =>
        throwAt faults .catchMessage outcome.service outcome.calls
          { outcome with
            result := .ok { response0 with error_message := "处理请求时出错: " ++ m } }
    match caught.result with
    | .error _ => caught
    | .ok returned =>
      throwAt faults .exitLock outcome.service outcome.calls
        { result := .ok returned
          service := outcome.service.addResponseTime env.elapsedMs
          calls := outcome.calls })

/-! ## Concrete inputs -/

/-- A record with every field zero or empty. -/
def blankData : WeatherData :=
  { temperature := 0, feels_like := 0, humidity := 0, wind_speed := 0, wind_direction := 0
    pressure := 0, precipitation := 0, cloud_cover := 0, uv_index := 0
    condition := "", description := "", weather_code := 0, icon_name := "", timestamp := 0
    city := "", country := "", latitude := 0, longitude := 0, timezone := ""
    hourly_forecast := [], daily_forecast := [] }

/-- A record as the API client could return it for a sunny day. -/
def sunnyData : WeatherData :=
  { blankData with temperature := 21, humidity := 40, condition := "晴天", icon_name := "sunny" }

/-- A record as the API client could return it for a rainy day. -/
def rainyData : WeatherData :=
  { blankData with temperature := 12, humidity := 90, weather_code := 61, condition := "小雨"
                   icon_name := "rain" }

/-- An API client that resolves every city to (49, 2) and returns fixed records. -/
def parisClient : APIClient :=
  { getCoordinates := fun _ _ => .ok (49, 2)
    getCurrentWeather := fun _ _ _ _ => .ok sunnyData
    getForecast := fun _ _ _ _ _ => .ok rainyData
    searchCity := fun _ _ => .ok [("Paris", "France")] }

/-- An API client whose coordinate resolution finds nothing: it returns (0.0, 0.0). -/
def nowhereClient : APIClient :=
  { parisClient with getCoordinates := fun _ _ => .ok (0, 0) }

/-- Inputs of a call in which the uninitialised `success` member holds `true`. -/
def parisEnv : Env :=
  { api := parisClient, default_data := blankData, uninit_success := true
    tGet := 1000, tPut := 1001, elapsedMs := 12 }

/-- Inputs of a later call, 99 seconds after the entry of the first was stored. -/
def parisEnvLater : Env :=
  { api := parisClient, default_data := blankData, uninit_success := false
    tGet := 1100, tPut := 1100, elapsedMs := 1 }

/-- Inputs of a call during which the clock behind `high_resolution_clock` is
set back: the end reading precedes the start reading and `duration.count()` is
-5 milliseconds. -/
def clockSetBackEnv : Env :=
  { parisEnv with elapsedMs := -5 }

/-- Inputs of a call whose coordinate resolution finds nothing. -/
def nowhereEnv : Env :=
  { parisEnv with api := nowhereClient }

/-- A CurrentWeather request for ("Paris", "FR") without language override. -/
def parisRequest : WeatherRequest :=
  { type := CURRENT_WEATHER, city_name := "Paris", country_code := "FR", days := 0
    latitude := 0, longitude := 0, language := "", units := "" }

/-- A CurrentWeather request for a city that does not exist. -/
def atlantisRequest : WeatherRequest :=
  { parisRequest with city_name := "Atlantis", country_code := "" }

/-- A Forecast request for ("Paris", "FR") with `days = -1`. -/
def forecastRequest : WeatherRequest :=
  { parisRequest with type := FORECAST, days := -1 }

/-- A fetched forecast record with two daily entries; its `condition` and
`icon_name` are what the API client derived for the current weather. -/
def parisForecast : WeatherData :=
  { rainyData with
    daily_forecast :=
      [ { date := 20250101, temp_max := 9, temp_min := 3, precipitation_sum := 4
          weather_code := 61, sunrise := "08:43", sunset := "17:04" },
        { date := 20250102, temp_max := 7, temp_min := 1, precipitation_sum := 0
          weather_code := 3, sunrise := "08:43", sunset := "17:05" } ] }

/-- An API client like `parisClient` whose forecast has two daily entries. -/
def forecastClient : APIClient :=
  { parisClient with getForecast := fun _ _ _ _ _ => .ok parisForecast }

/-- Inputs of a call served by `forecastClient`; the uninitialised `success`
member holds `false`. -/
def forecastEnv : Env :=
  { api := forecastClient, default_data := blankData, uninit_success := false
    tGet := 2000, tPut := 2001, elapsedMs := 30 }

/-- An API client whose city search finds nothing. -/
def noMatchClient : APIClient :=
  { parisClient with searchCity := fun _ _ => .ok [] }

/-- A Forecast request for ("Paris", "FR") over five days. -/
def fiveDayRequest : WeatherRequest :=
  { parisRequest with type := FORECAST, days := 5 }

/-- A SearchCity request with an empty query. -/
def emptySearchRequest : WeatherRequest :=
  { parisRequest with type := SEARCH_CITY, city_name := "", country_code := "" }

/-- A SearchCity request with the query "Par". -/
def searchRequest : WeatherRequest :=
  { parisRequest with type := SEARCH_CITY, city_name := "Par", country_code := "" }

/-- A GeoLocation request at (49, 2). -/
def geoRequest : WeatherRequest :=
  { parisRequest with type := GEO_LOCATION, city_name := "", country_code := ""
                      latitude := 49, longitude := 2 }

/-- A GeoLocation request at (0, 0). -/
def originRequest : WeatherRequest :=
  { geoRequest with latitude := 0, longitude := 0 }

/-- A request whose type is none of the four enumerators. -/
def unknownRequest : WeatherRequest :=
  { parisRequest with type := 7 }

/-- A transport on which every request fails: the body is empty, and an empty
body is not valid JSON. -/
def deadHttp : HttpLayer :=
  { buildCurrentWeatherUrl := fun _ _ _ _ => "https://api.open-meteo.com/v1/forecast"
    performRequest := fun _ => ""
    parseCurrent := fun body => if body = "" then none else some id }

/-- Inputs of a call whose current-weather fetch runs over `deadHttp`; the
uninitialised `success` member holds `false`. -/
def deadEnv : Env :=
  { api := deadHttp.client blankData parisClient, default_data := blankData
    uninit_success := false, tGet := 3000, tPut := 3001, elapsedMs := 10000 }

/-- A Forecast request for a city that does not exist. -/
def lostForecastRequest : WeatherRequest :=
  { atlantisRequest with type := FORECAST, days := 3 }

/-- A CurrentWeather request for the pair ("a_b", "c"). -/
def underscoreCityRequest : WeatherRequest :=
  { parisRequest with city_name := "a_b", country_code := "c" }

/-- A CurrentWeather request for the pair ("a", "b_c"). -/
def underscoreCountryRequest : WeatherRequest :=
  { parisRequest with city_name := "a", country_code := "b_c" }

/-- A five-day Forecast request for ("Paris", "FR") with the language override "en". -/
def englishForecastRequest : WeatherRequest :=
  { fiveDayRequest with language := "en" }

/-! ## Theorems: WeatherCache -/

theorem dlookup_filter_nodupKeys (p : CacheEntry → Bool) (k : String) :
    ∀ (l : List (Sigma (fun _ : String => CacheEntry))), l.NodupKeys →
      List.dlookup k (l.filter (fun e => p e.2)) = (List.dlookup k l).filter p
  | [], _ => by simp
  | ⟨k', v⟩ :: rest, nd => by
    have ndrest : rest.NodupKeys := List.nodupKeys_of_nodupKeys_cons nd
    have hnot : k' ∉ rest.keys := (List.nodupKeys_cons.mp nd).1
    have ih := dlookup_filter_nodupKeys p k rest ndrest
    by_cases hk : k = k'
    · subst hk
      have hnone : List.dlookup k rest = none := List.dlookup_eq_none.mpr hnot
      by_cases hp : p v = true
      · simp [List.filter_cons, hp, List.dlookup_cons_eq, Option.filter]
      · simp [List.filter_cons, hp, List.dlookup_cons_eq, Option.filter, ih, hnone]
    · have hne : ∀ (tail : List (Sigma (fun _ : String => CacheEntry))),
          List.dlookup k (⟨k', v⟩ :: tail) = List.dlookup k tail :=
        fun tail => List.dlookup_cons_ne tail ⟨k', v⟩ hk
      by_cases hp : p v = true
      · simp [List.filter_cons, hp, hne, ih]
      · simp [List.filter_cons, hp, hne, ih]

/-- An `int64_t` sum that fits in the type has its mathematical value. -/
theorem wrap64_of_inRange (x : Int) (hlo : -9223372036854775808 ≤ x)
    (hhi : x < 9223372036854775808) : wrap64 x = x := by
  unfold wrap64
  rw [Int.emod_eq_of_lt (by omega) (by omega)]
  omega

/-- The value of an `int64_t` expression lies in the range of the type. -/
theorem wrap64_range (x : Int) :
    -9223372036854775808 ≤ wrap64 x ∧ wrap64 x < 9223372036854775808 := by
  unfold wrap64
  have h1 := Int.emod_nonneg (x + 9223372036854775808)
    (by decide : (18446744073709551616 : Int) ≠ 0)
  have h2 := Int.emod_lt_of_pos (x + 9223372036854775808)
    (by decide : (0 : Int) < 18446744073709551616)
  omega

theorem find_put_self (c : WeatherCache) (key : String) (data : WeatherData) (ttl now : Int) :
    (c.put key data ttl now).find key =
      some { data := data, timestamp := now
             expiry := wrap64 (now + (if ttl > 0 then ttl else c.default_ttl_)) } := by
  simp [WeatherCache.put, WeatherCache.find, AList.lookup_insert]

theorem find_put_ne (c : WeatherCache) {key k : String} (data : WeatherData) (ttl now : Int)
    (h : k ≠ key) : (c.put key data ttl now).find k = c.find k := by
  simp [WeatherCache.put, WeatherCache.find, AList.lookup_insert_ne h]

theorem default_ttl_put (c : WeatherCache) (key : String) (data : WeatherData) (ttl now : Int) :
    (c.put key data ttl now).default_ttl_ = c.default_ttl_ := rfl

theorem get_of_find_none (c : WeatherCache) (key : String) (now : Int)
    (h : c.find key = none) : c.get key now = (none, c) := by
  unfold WeatherCache.find at h
  simp [WeatherCache.get, h]

theorem get_of_find_fresh (c : WeatherCache) (key : String) (now : Int) (e : CacheEntry)
    (h : c.find key = some e) (hfresh : now < e.expiry) : c.get key now = (some e.data, c) := by
  unfold WeatherCache.find at h
  simp [WeatherCache.get, h, hfresh]

theorem get_of_find_expired (c : WeatherCache) (key : String) (now : Int) (e : CacheEntry)
    (h : c.find key = some e) (hexp : ¬ now < e.expiry) :
    c.get key now = (none, { c with cache_ := c.cache_.erase key }) := by
  unfold WeatherCache.find at h
  simp [WeatherCache.get, h, hexp]

theorem find_cleanup (c : WeatherCache) (now : Int) (k : String) :
    (c.cleanup now).find k = (c.find k).filter (fun e => !decide (now ≥ e.expiry)) := by
  unfold WeatherCache.find WeatherCache.cleanup AList.lookup
  exact dlookup_filter_nodupKeys (fun e => !decide (now ≥ e.expiry)) k _ c.cache_.nodupKeys

/-- After `put(key, record, ttl)` at clock `now`, `get(key)` at clock `now2` is
a hit carrying `record` exactly while `now2` is before the stored expiry, the
`int64_t` sum of `now` and the effective TTL. -/
theorem get_put_self (c : WeatherCache) (key : String) (record : WeatherData)
    (ttl now now2 : Int) :
    ((c.put key record ttl now).get key now2).1 =
      if now2 < wrap64 (now + (if ttl > 0 then ttl else c.default_ttl_))
      then some record else none := by
  by_cases h : now2 < wrap64 (now + (if ttl > 0 then ttl else c.default_ttl_))
  · rw [get_of_find_fresh _ key now2 _ (find_put_self c key record ttl now) h, if_pos h]
  · rw [get_of_find_expired _ key now2 _ (find_put_self c key record ttl now) h, if_neg h]

/-- C1, counterexample.  With `ttl = 2^63 - 1` at clock 1000 the `int64_t` sum
`now + ttl` overflows: the stored expiry is negative, and a `get` one second
later is a miss although `1001 < 1000 + ttl`. -/
theorem cache_freshness_overflow :
    (1000 : Int) ≤ 1001 ∧
    (9223372036854775807 : Int) > 0 ∧
    (1001 : Int) < 1000 + 9223372036854775807 ∧
    ((WeatherCache.create 300).put "current_Paris_FR" sunnyData 9223372036854775807 1000).find
        "current_Paris_FR" =
      some { data := sunnyData, timestamp := 1000, expiry := -9223372036854774809 } ∧
    (((WeatherCache.create 300).put "current_Paris_FR" sunnyData 9223372036854775807 1000).get
        "current_Paris_FR" 1001).1 = none := by
  decide

/-- C1. Cache freshness: after `put(key, record, ttl)` at clock `t`, with `e`
equal to `ttl` if `ttl > 0` and to the default TTL of the cache otherwise, and
provided the sum `t + e` fits in `int64_t`, a `get(key)` at clock `t2` (any
`t2`, in particular `t <= t2`) is a hit carrying exactly `record` when
`t2 < t + e` and a miss when `t2 >= t + e`.  No `cleanup()` is involved. -/
theorem cache_freshness (c : WeatherCache) (key : String) (record : WeatherData)
    (ttl t t2 : Int)
    (hlo : -9223372036854775808 ≤ t + (if ttl > 0 then ttl else c.default_ttl_))
    (hhi : t + (if ttl > 0 then ttl else c.default_ttl_) < 9223372036854775808) :
    ((c.put key record ttl t).get key t2).1 =
      if t2 < t + (if ttl > 0 then ttl else c.default_ttl_) then some record else none := by
  rw [get_put_self, wrap64_of_inRange _ hlo hhi]

/-- An entry stored at clock 1000 with TTL 60 is returned at clock 1059 and at
no later clock reading from 1060 on (here 1060), without any `cleanup()`. -/
theorem cache_freshness_witness :
    (((WeatherCache.create 300).put "current_Paris_FR" sunnyData 60 1000).get
        "current_Paris_FR" 1059).1 = some sunnyData ∧
    (((WeatherCache.create 300).put "current_Paris_FR" sunnyData 60 1000).get
        "current_Paris_FR" 1060).1 = none ∧
    (((WeatherCache.create 300).put "current_Paris_FR" sunnyData 0 1000).get
        "current_Paris_FR" 1299).1 = some sunnyData :=
  ⟨(cache_freshness (WeatherCache.create 300) "current_Paris_FR" sunnyData 60 1000 1059
      (by decide) (by decide)).trans (by decide),
   (cache_freshness (WeatherCache.create 300) "current_Paris_FR" sunnyData 60 1000 1060
      (by decide) (by decide)).trans (by decide),
   (cache_freshness (WeatherCache.create 300) "current_Paris_FR" sunnyData 0 1000 1299
      (by decide) (by decide)).trans (by decide)⟩

theorem find_get_miss_ne (c : WeatherCache) (key k : String) (now : Int) (h : k ≠ key) :
    ((c.get key now).2).find k = c.find k := by
  unfold WeatherCache.get WeatherCache.find
  cases hl : c.cache_.lookup key with
  | none => rfl
  | some e =>
    by_cases hfresh : now < e.expiry
    · simp [hfresh]
    · simp [hfresh, AList.lookup_erase_ne h]

theorem default_ttl_get (c : WeatherCache) (key : String) (now : Int) :
    ((c.get key now).2).default_ttl_ = c.default_ttl_ := by
  unfold WeatherCache.get
  cases hl : c.cache_.lookup key with
  | none => rfl
  | some e =>
    by_cases hfresh : now < e.expiry
    · simp [hfresh]
    · simp [hfresh]

/-- C2. Postcondition of `WeatherCache::get`: it returns a hit carrying the
stored record exactly when an entry for `key` exists and `now < expiry`; on a
hit the cache is unchanged; on a miss with an (expired) entry for `key` that
entry is gone afterwards, every other key maps to what it mapped to before and
the default TTL is unchanged; on a miss with no entry for `key` the cache is
unchanged. -/
theorem get_postcondition (c : WeatherCache) (key : String) (now : Int) :
    (∀ r, (c.get key now).1 = some r ↔
        ∃ e, c.find key = some e ∧ now < e.expiry ∧ e.data = r) ∧
    ((c.get key now).1.isSome = true → (c.get key now).2 = c) ∧
    ((c.get key now).1 = none → (c.find key).isSome = true →
        ((c.get key now).2).find key = none ∧
        (∀ k, k ≠ key → ((c.get key now).2).find k = c.find k) ∧
        ((c.get key now).2).default_ttl_ = c.default_ttl_) ∧
    ((c.get key now).1 = none → c.find key = none → (c.get key now).2 = c) := by
  cases hfind : c.find key with
  | none =>
    rw [get_of_find_none c key now hfind]
    simp
  | some e =>
    by_cases hfresh : now < e.expiry
    · rw [get_of_find_fresh c key now e hfind hfresh]
      simp [hfresh]
    · rw [get_of_find_expired c key now e hfind hfresh]
      refine ⟨by simp [hfresh], by simp, ?_, by simp⟩
      intro _ _
      refine ⟨?_, ?_, rfl⟩
      · simp [WeatherCache.find, AList.lookup_erase]
      · intro k hk
        simp [WeatherCache.find, AList.lookup_erase_ne hk]

/-- C3. Cache overwrite: after `put(key, A, ttlA)` at `t1` and `put(key, B, ttlB)`
at `t2`, the entry under `key` is the one of `B`, whose expiry is the `int64_t`
sum of `t2` and the effective TTL of the second `put`; `get(key)` at `t3`
returns `B` while `t3` is before that expiry and a miss afterwards; with
`A != B` it never returns `A`, whatever the two TTLs are; and when the sum fits
in `int64_t`, "before the expiry" is `t3 < t2 + e`. -/
theorem cache_overwrite (c : WeatherCache) (key : String) (A B : WeatherData)
    (ttlA ttlB t1 t2 t3 : Int) (hAB : A ≠ B) :
    ((c.put key A ttlA t1).put key B ttlB t2).find key =
        some { data := B, timestamp := t2
               expiry := wrap64 (t2 + (if ttlB > 0 then ttlB else c.default_ttl_)) } ∧
    (((c.put key A ttlA t1).put key B ttlB t2).get key t3).1 =
        (if t3 < wrap64 (t2 + (if ttlB > 0 then ttlB else c.default_ttl_))
          then some B else none) ∧
    (((c.put key A ttlA t1).put key B ttlB t2).get key t3).1 ≠ some A ∧
    (-9223372036854775808 ≤ t2 + (if ttlB > 0 then ttlB else c.default_ttl_) →
      t2 + (if ttlB > 0 then ttlB else c.default_ttl_) < 9223372036854775808 →
      (((c.put key A ttlA t1).put key B ttlB t2).get key t3).1 =
        (if t3 < t2 + (if ttlB > 0 then ttlB else c.default_ttl_) then some B else none)) := by
  have hfind := find_put_self (c.put key A ttlA t1) key B ttlB t2
  rw [default_ttl_put] at hfind
  have hget := get_put_self (c.put key A ttlA t1) key B ttlB t2 t3
  rw [default_ttl_put] at hget
  refine ⟨hfind, hget, ?_, ?_⟩
  · rw [hget]
    by_cases hlt : t3 < wrap64 (t2 + (if ttlB > 0 then ttlB else c.default_ttl_))
    · rw [if_pos hlt]
      exact fun hEq => hAB (Option.some.inj hEq).symm
    · rw [if_neg hlt]
      exact fun hEq => by cases hEq
  · intro hlo hhi
    rw [hget, wrap64_of_inRange _ hlo hhi]

/-- A later expiry of `A` (TTL 1000 against 10) does not bring `A` back: at
clock 14 the answer is `B`, and at clock 50 the entry of `B`, stored at clock 5
with expiry 15, has expired and `get` misses. -/
theorem cache_overwrite_witness :
    sunnyData ≠ rainyData ∧
    ((((WeatherCache.create 300).put "current_Paris_FR" sunnyData 1000 0).put
        "current_Paris_FR" rainyData 10 5).get "current_Paris_FR" 14).1 = some rainyData ∧
    ((((WeatherCache.create 300).put "current_Paris_FR" sunnyData 1000 0).put
        "current_Paris_FR" rainyData 10 5).get "current_Paris_FR" 50).1 = none ∧
    ((((WeatherCache.create 300).put "current_Paris_FR" sunnyData 1000 0).put
        "current_Paris_FR" rainyData 10 5).get "current_Paris_FR" 50).1 ≠ some sunnyData :=
  ⟨by decide,
   ((cache_overwrite (WeatherCache.create 300) "current_Paris_FR" sunnyData rainyData
     1000 10 0 5 14 (by decide)).2.2.2 (by decide) (by decide)).trans (by decide),
   ((cache_overwrite (WeatherCache.create 300) "current_Paris_FR" sunnyData rainyData
     1000 10 0 5 50 (by decide)).2.2.2 (by decide) (by decide)).trans (by decide),
   (cache_overwrite (WeatherCache.create 300) "current_Paris_FR" sunnyData rainyData
     1000 10 0 5 50 (by decide)).2.2.1⟩

/-- C4. Postcondition of `WeatherCache::cleanup`: afterwards a key maps to an
entry exactly when it mapped to that same entry (record, timestamp and expiry)
before and `now < expiry`; no entry with `now >= expiry` remains; the default
TTL is unchanged. -/
theorem cleanup_postcondition (c : WeatherCache) (now : Int) :
    (∀ k e, (c.cleanup now).find k = some e ↔ (c.find k = some e ∧ now < e.expiry)) ∧
    (∀ k e, (c.cleanup now).find k = some e → ¬ now ≥ e.expiry) ∧
    (c.cleanup now).default_ttl_ = c.default_ttl_ := by
  have key : ∀ k e, (c.cleanup now).find k = some e ↔ (c.find k = some e ∧ now < e.expiry) := by
    intro k e
    rw [find_cleanup]
    cases hfind : c.find k with
    | none => simp [Option.filter]
    | some e' =>
      by_cases hexp : now ≥ e'.expiry
      · simp only [Option.filter, hexp, decide_True, Bool.not_true]
        constructor
        · intro h; cases h
        · rintro ⟨h1, h2⟩
          cases h1
          omega
      · simp only [Option.filter, hexp, decide_False, Bool.not_false, if_true]
        constructor
        · intro h
          cases h
          exact ⟨rfl, by omega⟩
        · rintro ⟨h1, _⟩
          exact h1
  refine ⟨key, ?_, rfl⟩
  intro k e h
  have := ((key k e).mp h).2
  omega

/-- C5. Cleanup idempotence: a second `cleanup()` at the same clock reading, with
no operation in between, leaves the cache exactly as the first one left it. -/
theorem cleanup_idempotent (c : WeatherCache) (now : Int) :
    (c.cleanup now).cleanup now = c.cleanup now := by
  unfold WeatherCache.cleanup
  congr 1
  apply AList.ext
  simp [List.filter_filter]

/-! ## Theorems: WeatherService -/

theorem fetchCurrentWeather_found (env : Env) (s : WeatherService) (request : WeatherRequest)
    (lat lon : Double) (fetched : WeatherData)
    (hcoords : env.api.getCoordinates request.city_name request.country_code = .ok (lat, lon))
    (hnz : ¬ (lat = 0 ∧ lon = 0))
    (hfetch : env.api.getCurrentWeather lat lon "auto" (effectiveLanguage s request)
      = .ok fetched) :
    fetchCurrentWeather env s request =
      { result := .ok
          { env.freshResponse with
            current_weather :=
              { fetched with
                city := request.city_name, country := request.country_code
                latitude := lat, longitude := lon }
            success := true }
        service :=
          (if s.cache_enabled_ then
            ({ s with
               cache_ := s.cache_.put (currentCacheKey request)
                 { fetched with
                   city := request.city_name, country := request.country_code
                   latitude := lat, longitude := lon } 0 env.tPut } : WeatherService)
           else s).countApiCall
        calls :=
          [UpstreamCall.getCoordinates request.city_name request.country_code,
           UpstreamCall.getCurrentWeather lat lon "auto" (effectiveLanguage s request)] } := by
  unfold fetchCurrentWeather
  simp only [hcoords, hfetch, if_neg hnz]

theorem fetchCurrentWeather_notFound (env : Env) (s : WeatherService) (request : WeatherRequest)
    (hcoords : env.api.getCoordinates request.city_name request.country_code = .ok (0, 0)) :
    fetchCurrentWeather env s request =
      { result := .ok { env.freshResponse with error_message := "无法找到城市坐标" }
        service := s
        calls := [UpstreamCall.getCoordinates request.city_name request.country_code] } := by
  unfold fetchCurrentWeather
  simp only [hcoords, and_self, if_true]

theorem handleCurrentWeather_miss (env : Env) (s : WeatherService) (request : WeatherRequest)
    (henabled : s.cache_enabled_ = true)
    (hmiss : (s.cache_.get (currentCacheKey request) env.tGet).1 = none) :
    handleCurrentWeather env s request =
      fetchCurrentWeather env
        { s with cache_ := (s.cache_.get (currentCacheKey request) env.tGet).2 } request := by
  unfold handleCurrentWeather
  rw [if_pos henabled]
  generalize s.cache_.get (currentCacheKey request) env.tGet = got at hmiss
  obtain ⟨hit, cache⟩ := got
  simp only at hmiss
  subst hmiss
  rfl

theorem handleCurrentWeather_disabled (env : Env) (s : WeatherService)
    (request : WeatherRequest) (hdisabled : s.cache_enabled_ = false) :
    handleCurrentWeather env s request = fetchCurrentWeather env s request := by
  unfold handleCurrentWeather
  rw [if_neg (by simp [hdisabled])]

theorem processRequest_current (env : Env) (s : WeatherService) (request : WeatherRequest)
    (htype : request.type = CURRENT_WEATHER) :
    processRequest env s request =
      { response :=
          match (handleCurrentWeather env s.countRequest request).result with
          | .ok returned => returned
          | .error m =>
            { ({ env.freshResponse with success := false } : WeatherResponse) with
              error_message := "处理请求时出错: " ++ m }
        service :=
          (handleCurrentWeather env s.countRequest request).service.addResponseTime env.elapsedMs
        calls := (handleCurrentWeather env s.countRequest request).calls } := by
  unfold processRequest dispatch
  simp only [htype, if_true]
theorem processRequest_current_miss (env : Env) (s : WeatherService) (request : WeatherRequest)
    (lat lon : Double) (fetched : WeatherData)
    (htype : request.type = CURRENT_WEATHER)
    (hmiss : s.cache_enabled_ = true →
      (s.cache_.get (currentCacheKey request) env.tGet).1 = none)
    (hcoords : env.api.getCoordinates request.city_name request.country_code = .ok (lat, lon))
    (hnz : ¬ (lat = 0 ∧ lon = 0))
    (hfetch : env.api.getCurrentWeather lat lon "auto"
      (if request.language = "" then s.language_ else request.language) = .ok fetched) :
    processRequest env s request =
      { response :=
          { success := true, error_message := ""
            current_weather :=
              { fetched with
                city := request.city_name, country := request.country_code
                latitude := lat, longitude := lon }
            forecast := [], city_suggestions := [] }
        service :=
          { s with
            cache_ :=
              if s.cache_enabled_ then
                (s.cache_.get (currentCacheKey request) env.tGet).2.put (currentCacheKey request)
                  { fetched with
                    city := request.city_name, country := request.country_code
                    latitude := lat, longitude := lon } 0 env.tPut
              else s.cache_
            stats_ :=
              { total_requests := s.stats_.total_requests + 1
                cache_hits := s.stats_.cache_hits
                api_calls := s.stats_.api_calls + 1
                total_response_time := s.stats_.total_response_time + env.elapsedMs } }
        calls :=
          [UpstreamCall.getCoordinates request.city_name request.country_code,
           UpstreamCall.getCurrentWeather lat lon "auto"
             (if request.language = "" then s.language_ else request.language)] } := by
  rw [processRequest_current env s request htype]
  by_cases hen : s.cache_enabled_ = true
  · rw [handleCurrentWeather_miss env s.countRequest request hen (hmiss hen),
      fetchCurrentWeather_found env
        { s.countRequest with
          cache_ := (s.countRequest.cache_.get (currentCacheKey request) env.tGet).2 }
        request lat lon fetched hcoords hnz hfetch]
    simp [hen, WeatherService.countApiCall, WeatherService.countRequest,
      WeatherService.addResponseTime, Env.freshResponse, effectiveLanguage]
  · have hdis : s.cache_enabled_ = false := by simpa using hen
    rw [handleCurrentWeather_disabled env s.countRequest request hdis,
      fetchCurrentWeather_found env s.countRequest request lat lon fetched hcoords hnz hfetch]
    simp [hdis, WeatherService.countApiCall, WeatherService.countRequest,
      WeatherService.addResponseTime, Env.freshResponse, effectiveLanguage]

theorem processRequest_current_notFound (env : Env) (s : WeatherService)
    (request : WeatherRequest) (htype : request.type = CURRENT_WEATHER)
    (hmiss : s.cache_enabled_ = true →
      (s.cache_.get (currentCacheKey request) env.tGet).1 = none)
    (hcoords : env.api.getCoordinates request.city_name request.country_code = .ok (0, 0)) :
    processRequest env s request =
      { response :=
          { success := env.uninit_success, error_message := "无法找到城市坐标"
            current_weather := env.default_data, forecast := [], city_suggestions := [] }
        service :=
          { s with
            cache_ :=
              if s.cache_enabled_ then (s.cache_.get (currentCacheKey request) env.tGet).2
              else s.cache_
            stats_ :=
              { total_requests := s.stats_.total_requests + 1
                cache_hits := s.stats_.cache_hits
                api_calls := s.stats_.api_calls
                total_response_time := s.stats_.total_response_time + env.elapsedMs } }
        calls := [UpstreamCall.getCoordinates request.city_name request.country_code] } := by
  rw [processRequest_current env s request htype]
  by_cases hen : s.cache_enabled_ = true
  · rw [handleCurrentWeather_miss env s.countRequest request hen (hmiss hen),
      fetchCurrentWeather_notFound env _ request hcoords]
    simp [hen, WeatherService.countRequest, WeatherService.addResponseTime, Env.freshResponse]
  · have hdis : s.cache_enabled_ = false := by simpa using hen
    rw [handleCurrentWeather_disabled env s.countRequest request hdis,
      fetchCurrentWeather_notFound env _ request hcoords]
    simp [hdis, WeatherService.countRequest, WeatherService.addResponseTime, Env.freshResponse]

/-- C6, counterexample.  After `setCacheTTL(2^63 - 1)` the entry stored by the
next CurrentWeather miss, at clock 1001, does not expire `ttl_seconds` later:
the `int64_t` sum overflows, the stored expiry is negative, and a `get` at the
very clock reading of the `put` already misses. -/
theorem setCacheTTL_overflow_expiry :
    (WeatherService.create.setCacheTTL 9223372036854775807).cache_.default_ttl_ =
      9223372036854775807 ∧
    parisEnv.tPut = 1001 ∧
    (processRequest parisEnv (WeatherService.create.setCacheTTL 9223372036854775807)
        parisRequest).service.cache_.find (currentCacheKey parisRequest) =
      some
        { data := { sunnyData with city := "Paris", country := "FR", latitude := 49, longitude := 2 }
          timestamp := 1001
          expiry := -9223372036854774808 } ∧
    ((processRequest parisEnv (WeatherService.create.setCacheTTL 9223372036854775807)
        parisRequest).service.cache_.get (currentCacheKey parisRequest) 1001).1 = none := by
  decide

/-- C6. Changing the TTL discards the whole cache: after `setCacheTTL(ttl_seconds)`
no key has an entry, so `get` misses for every key at every clock reading; the
new default TTL is `ttl_seconds`; the other settings and the counters are kept;
and the entry stored by a CurrentWeather request processed next (caching
enabled, coordinates resolved, record fetched) carries the stamped record, its
expiry is the `int64_t` sum of the clock reading at which it is stored and
`ttl_seconds`, and when that sum fits in `int64_t` the entry expires
`ttl_seconds` after it is stored. -/
theorem setCacheTTL_discards_cache (s : WeatherService) (ttl_seconds : Int) :
    (∀ key, (s.setCacheTTL ttl_seconds).cache_.find key = none) ∧
    (∀ key now, ((s.setCacheTTL ttl_seconds).cache_.get key now).1 = none) ∧
    (s.setCacheTTL ttl_seconds).cache_.default_ttl_ = ttl_seconds ∧
    (s.setCacheTTL ttl_seconds).cache_enabled_ = s.cache_enabled_ ∧
    (s.setCacheTTL ttl_seconds).stats_ = s.stats_ ∧
    (∀ (env : Env) (request : WeatherRequest) (lat lon : Double) (fetched : WeatherData),
      s.cache_enabled_ = true →
      request.type = CURRENT_WEATHER →
      env.api.getCoordinates request.city_name request.country_code = .ok (lat, lon) →
      ¬ (lat = 0 ∧ lon = 0) →
      env.api.getCurrentWeather lat lon "auto"
        (if request.language = "" then s.language_ else request.language) = .ok fetched →
      (processRequest env (s.setCacheTTL ttl_seconds) request).service.cache_.find
          (currentCacheKey request) =
        some
          { data :=
              { fetched with
                city := request.city_name, country := request.country_code
                latitude := lat, longitude := lon }
            timestamp := env.tPut
            expiry := wrap64 (env.tPut + ttl_seconds) } ∧
      (-9223372036854775808 ≤ env.tPut + ttl_seconds →
        env.tPut + ttl_seconds < 9223372036854775808 →
        (processRequest env (s.setCacheTTL ttl_seconds) request).service.cache_.find
            (currentCacheKey request) =
          some
            { data :=
                { fetched with
                  city := request.city_name, country := request.country_code
                  latitude := lat, longitude := lon }
              timestamp := env.tPut
              expiry := env.tPut + ttl_seconds })) := by
  have hempty : ∀ key, (s.setCacheTTL ttl_seconds).cache_.find key = none := by
    intro key
    simp [WeatherService.setCacheTTL, WeatherCache.create, WeatherCache.find]
  refine ⟨hempty, ?_, rfl, rfl, rfl, ?_⟩
  · intro key now
    rw [get_of_find_none _ key now (hempty key)]
  · intro env request lat lon fetched henabled htype hcoords hnz hfetch
    have hen : (s.setCacheTTL ttl_seconds).cache_enabled_ = true := henabled
    have hstored :
        (processRequest env (s.setCacheTTL ttl_seconds) request).service.cache_.find
            (currentCacheKey request) =
          some
            { data :=
                { fetched with
                  city := request.city_name, country := request.country_code
                  latitude := lat, longitude := lon }
              timestamp := env.tPut
              expiry := wrap64 (env.tPut + ttl_seconds) } := by
      rw [processRequest_current_miss env (s.setCacheTTL ttl_seconds) request lat lon fetched
        htype (fun _ => by rw [get_of_find_none _ _ _ (hempty _)]) hcoords hnz hfetch]
      simp only [hen, if_true]
      rw [find_put_self, default_ttl_get]
      simp [WeatherService.setCacheTTL, WeatherCache.create]
    refine ⟨hstored, ?_⟩
    intro hlo hhi
    rw [hstored, wrap64_of_inRange _ hlo hhi]

/-- With TTL 60 set on a fresh service, the entry stored for ("Paris", "FR") at
clock 1001 expires at 1061. -/
theorem setCacheTTL_discards_cache_witness :
    (processRequest parisEnv (WeatherService.create.setCacheTTL 60) parisRequest).service.cache_.find
        (currentCacheKey parisRequest) =
      some
        { data :=
            { sunnyData with
              city := parisRequest.city_name, country := parisRequest.country_code
              latitude := 49, longitude := 2 }
          timestamp := parisEnv.tPut
          expiry := parisEnv.tPut + 60 } :=
  ((setCacheTTL_discards_cache WeatherService.create 60).2.2.2.2.2 parisEnv parisRequest 49 2
    sunnyData rfl rfl rfl (by decide) rfl).2 (by decide) (by decide)

/-- C8. Unresolvable city, evaluated on the code: a CurrentWeather request for
"Atlantis" on a fresh service, coordinates resolved to (0.0, 0.0), handled
while the never-initialised `success` member of the handler's response holds
`true`.  The response carries the location-not-found message, the weather
fetch is not invoked, `api_calls` and `cache_hits` stay 0 and no cache entry is
created, but the returned `success` is `true`, not `false`. -/
theorem unresolvable_city_success_not_false :
    (processRequest nowhereEnv WeatherService.create atlantisRequest).response.success = true ∧
    (processRequest nowhereEnv WeatherService.create atlantisRequest).response.error_message
      = "无法找到城市坐标" ∧
    (processRequest nowhereEnv WeatherService.create atlantisRequest).calls
      = [UpstreamCall.getCoordinates "Atlantis" ""] ∧
    (processRequest nowhereEnv WeatherService.create atlantisRequest).service.stats_.api_calls = 0 ∧
    (processRequest nowhereEnv WeatherService.create atlantisRequest).service.stats_.cache_hits = 0 ∧
    (processRequest nowhereEnv WeatherService.create atlantisRequest).service.cache_.find
      (currentCacheKey atlantisRequest) = none := by
  decide

theorem processRequest_forecast_calls (env : Env) (s : WeatherService)
    (request : WeatherRequest) (htype : request.type = FORECAST) :
    (processRequest env s request).calls = (handleForecast env s.countRequest request).calls := by
  unfold processRequest dispatch
  simp [htype, FORECAST, CURRENT_WEATHER]

theorem handleForecast_calls_found (env : Env) (s : WeatherService) (request : WeatherRequest)
    (lat lon : Double)
    (hcoords : env.api.getCoordinates request.city_name request.country_code = .ok (lat, lon))
    (hnz : ¬ (lat = 0 ∧ lon = 0)) :
    (handleForecast env s request).calls =
      [UpstreamCall.getCoordinates request.city_name request.country_code,
       UpstreamCall.getForecast lat lon (if request.days > 0 then request.days else 3) "auto"
         (effectiveLanguage s request)] := by
  unfold handleForecast
  simp only [hcoords, if_neg hnz]
  cases env.api.getForecast lat lon (if request.days > 0 then request.days else 3) "auto"
    (effectiveLanguage s request) <;> rfl

theorem handleForecast_calls_cases (env : Env) (s : WeatherService) (request : WeatherRequest) :
    (handleForecast env s request).calls =
        [UpstreamCall.getCoordinates request.city_name request.country_code] ∨
    ∃ lat lon, (handleForecast env s request).calls =
        [UpstreamCall.getCoordinates request.city_name request.country_code,
         UpstreamCall.getForecast lat lon (if request.days > 0 then request.days else 3) "auto"
           (effectiveLanguage s request)] := by
  cases hcoords : env.api.getCoordinates request.city_name request.country_code with
  | error m =>
    left
    unfold handleForecast
    simp only [hcoords]
  | ok coords =>
    obtain ⟨lat, lon⟩ := coords
    by_cases hz : lat = 0 ∧ lon = 0
    · left
      unfold handleForecast
      simp only [hcoords, if_pos hz]
    · right
      exact ⟨lat, lon, handleForecast_calls_found env s request lat lon hcoords hz⟩

/-- C10. Forecast day clamping: for a Forecast request whose coordinates resolve
to `(lat, lon)` other than (0,0), the API client is invoked with the coordinate
resolution followed by a forecast fetch with day count `request.days` when
`request.days > 0` and 3 otherwise; and whatever the coordinate resolution
yields, no forecast fetch is invoked with a non-positive day count. -/
theorem forecast_day_clamping (env : Env) (s : WeatherService) (request : WeatherRequest)
    (htype : request.type = FORECAST) :
    (∀ lat lon,
      env.api.getCoordinates request.city_name request.country_code = .ok (lat, lon) →
      ¬ (lat = 0 ∧ lon = 0) →
      (processRequest env s request).calls =
        [UpstreamCall.getCoordinates request.city_name request.country_code,
         UpstreamCall.getForecast lat lon (if request.days > 0 then request.days else 3) "auto"
           (if request.language = "" then s.language_ else request.language)]) ∧
    (∀ lat lon days timezone language,
      UpstreamCall.getForecast lat lon days timezone language ∈ (processRequest env s request).calls →
      0 < days) := by
  rw [processRequest_forecast_calls env s request htype]
  constructor
  · intro lat lon hcoords hnz
    exact handleForecast_calls_found env s.countRequest request lat lon hcoords hnz
  · intro lat lon days timezone language hmem
    rcases handleForecast_calls_cases env s.countRequest request with h | ⟨la, lo, h⟩
    · rw [h] at hmem
      simp at hmem
    · rw [h] at hmem
      simp only [List.mem_cons, List.mem_singleton, List.not_mem_nil, or_false, false_or,
        UpstreamCall.getForecast.injEq] at hmem
      rcases hmem with h1 | ⟨_, _, hd, _, _⟩
      · cases h1
      · rw [hd]
        split <;> omega

/-- The scenario `days = -1` for ("Paris", "FR"): the fetch is invoked with 3. -/
theorem forecast_day_clamping_witness :
    (processRequest parisEnv WeatherService.create forecastRequest).calls =
      [UpstreamCall.getCoordinates "Paris" "FR",
       UpstreamCall.getForecast 49 2 3 "auto" "zh"] :=
  (forecast_day_clamping parisEnv WeatherService.create forecastRequest rfl).1 49 2 rfl
    (by decide)

/-! ## Theorems: the other request variants -/

theorem processRequest_forecast (env : Env) (s : WeatherService) (request : WeatherRequest)
    (htype : request.type = FORECAST) :
    processRequest env s request =
      { response :=
          match (handleForecast env s.countRequest request).result with
          | .ok returned => returned
          | .error m =>
            { ({ env.freshResponse with success := false } : WeatherResponse) with
              error_message := "处理请求时出错: " ++ m }
        service := (handleForecast env s.countRequest request).service.addResponseTime env.elapsedMs
        calls := (handleForecast env s.countRequest request).calls } := by
  unfold processRequest dispatch
  simp [htype, FORECAST, CURRENT_WEATHER]

theorem processRequest_search (env : Env) (s : WeatherService) (request : WeatherRequest)
    (htype : request.type = SEARCH_CITY) :
    processRequest env s request =
      { response :=
          match (handleCitySearch env s.countRequest request).result with
          | .ok returned => returned
          | .error m =>
            { ({ env.freshResponse with success := false } : WeatherResponse) with
              error_message := "处理请求时出错: " ++ m }
        service :=
          (handleCitySearch env s.countRequest request).service.addResponseTime env.elapsedMs
        calls := (handleCitySearch env s.countRequest request).calls } := by
  unfold processRequest dispatch
  simp [htype, SEARCH_CITY, FORECAST, CURRENT_WEATHER]

theorem processRequest_geo (env : Env) (s : WeatherService) (request : WeatherRequest)
    (htype : request.type = GEO_LOCATION) :
    processRequest env s request =
      { response :=
          match (handleGeoLocation env s.countRequest request).result with
          | .ok returned => returned
          | .error m =>
            { ({ env.freshResponse with success := false } : WeatherResponse) with
              error_message := "处理请求时出错: " ++ m }
        service :=
          (handleGeoLocation env s.countRequest request).service.addResponseTime env.elapsedMs
        calls := (handleGeoLocation env s.countRequest request).calls } := by
  unfold processRequest dispatch
  simp [htype, GEO_LOCATION, SEARCH_CITY, FORECAST, CURRENT_WEATHER]

theorem processRequest_unknown (env : Env) (s : WeatherService) (request : WeatherRequest)
    (h0 : request.type ≠ CURRENT_WEATHER) (h1 : request.type ≠ FORECAST)
    (h2 : request.type ≠ SEARCH_CITY) (h3 : request.type ≠ GEO_LOCATION) :
    processRequest env s request =
      { response :=
          { success := false, error_message := "未知请求类型"
            current_weather := env.default_data, forecast := [], city_suggestions := [] }
        service := s.countRequest.addResponseTime env.elapsedMs
        calls := [] } := by
  unfold processRequest dispatch
  simp [h0, h1, h2, h3, Env.freshResponse]

theorem handleForecast_found (env : Env) (s : WeatherService) (request : WeatherRequest)
    (lat lon : Double) (fetched : WeatherData)
    (hcoords : env.api.getCoordinates request.city_name request.country_code = .ok (lat, lon))
    (hnz : ¬ (lat = 0 ∧ lon = 0))
    (hfetch : env.api.getForecast lat lon (if request.days > 0 then request.days else 3) "auto"
      (effectiveLanguage s request) = .ok fetched) :
    handleForecast env s request =
      { result := .ok
          { success := true, error_message := ""
            current_weather :=
              { fetched with city := request.city_name, country := request.country_code }
            forecast := fetched.daily_forecast.map (projectDaily env s)
            city_suggestions := [] }
        service := s.countApiCall
        calls :=
          [UpstreamCall.getCoordinates request.city_name request.country_code,
           UpstreamCall.getForecast lat lon (if request.days > 0 then request.days else 3) "auto"
             (effectiveLanguage s request)] } := by
  unfold handleForecast
  simp only [hcoords, hfetch, if_neg hnz]
  simp [Env.freshResponse]

theorem handleForecast_notFound (env : Env) (s : WeatherService) (request : WeatherRequest)
    (hcoords : env.api.getCoordinates request.city_name request.country_code = .ok (0, 0)) :
    handleForecast env s request =
      { result := .ok { env.freshResponse with error_message := "无法找到城市坐标" }
        service := s
        calls := [UpstreamCall.getCoordinates request.city_name request.country_code] } := by
  unfold handleForecast
  simp only [hcoords, and_self, if_true]

theorem handleCitySearch_empty (env : Env) (s : WeatherService) (request : WeatherRequest)
    (hquery : request.city_name = "") :
    handleCitySearch env s request =
      { result := .ok { env.freshResponse with error_message := "搜索查询不能为空" }
        service := s
        calls := [] } := by
  unfold handleCitySearch
  simp only [hquery, if_true]

theorem handleCitySearch_results (env : Env) (s : WeatherService) (request : WeatherRequest)
    (results : List (String × String)) (hquery : request.city_name ≠ "")
    (hsearch : env.api.searchCity request.city_name 10 = .ok results) :
    handleCitySearch env s request =
      { result := .ok
          { success := !results.isEmpty
            error_message := if results.isEmpty then "未找到匹配的城市" else ""
            current_weather := env.default_data
            forecast := []
            city_suggestions := results }
        service := s
        calls := [UpstreamCall.searchCity request.city_name 10] } := by
  unfold handleCitySearch
  simp only [if_neg hquery, hsearch]
  cases results <;> simp [Env.freshResponse]

theorem handleGeoLocation_origin (env : Env) (s : WeatherService) (request : WeatherRequest)
    (hzero : request.latitude = 0 ∧ request.longitude = 0) :
    handleGeoLocation env s request =
      { result := .ok { env.freshResponse with error_message := "无效的经纬度" }
        service := s
        calls := [] } := by
  unfold handleGeoLocation
  simp only [if_pos hzero]

theorem handleGeoLocation_found (env : Env) (s : WeatherService) (request : WeatherRequest)
    (fetched : WeatherData) (hnz : ¬ (request.latitude = 0 ∧ request.longitude = 0))
    (hfetch : env.api.getCurrentWeather request.latitude request.longitude "auto" s.language_
      = .ok fetched) :
    handleGeoLocation env s request =
      { result := .ok
          { success := true, error_message := "", current_weather := fetched
            forecast := [], city_suggestions := [] }
        service := s.countApiCall
        calls :=
          [UpstreamCall.getCurrentWeather request.latitude request.longitude "auto"
            s.language_] } := by
  unfold handleGeoLocation
  simp only [if_neg hnz, hfetch]
  simp [Env.freshResponse]
theorem processRequest_forecast_found (env : Env) (s : WeatherService)
    (request : WeatherRequest) (lat lon : Double) (fetched : WeatherData)
    (htype : request.type = FORECAST)
    (hcoords : env.api.getCoordinates request.city_name request.country_code = .ok (lat, lon))
    (hnz : ¬ (lat = 0 ∧ lon = 0))
    (hfetch : env.api.getForecast lat lon (if request.days > 0 then request.days else 3) "auto"
      (if request.language = "" then s.language_ else request.language) = .ok fetched) :
    processRequest env s request =
      { response :=
          { success := true, error_message := ""
            current_weather :=
              { fetched with city := request.city_name, country := request.country_code }
            forecast := fetched.daily_forecast.map (projectDaily env s)
            city_suggestions := [] }
        service :=
          { s with
            stats_ :=
              { total_requests := s.stats_.total_requests + 1
                cache_hits := s.stats_.cache_hits
                api_calls := s.stats_.api_calls + 1
                total_response_time := s.stats_.total_response_time + env.elapsedMs } }
        calls :=
          [UpstreamCall.getCoordinates request.city_name request.country_code,
           UpstreamCall.getForecast lat lon (if request.days > 0 then request.days else 3) "auto"
             (if request.language = "" then s.language_ else request.language)] } := by
  rw [processRequest_forecast env s request htype,
    handleForecast_found env s.countRequest request lat lon fetched hcoords hnz hfetch]
  rfl

theorem processRequest_geo_found (env : Env) (s : WeatherService) (request : WeatherRequest)
    (fetched : WeatherData) (htype : request.type = GEO_LOCATION)
    (hnz : ¬ (request.latitude = 0 ∧ request.longitude = 0))
    (hfetch : env.api.getCurrentWeather request.latitude request.longitude "auto" s.language_
      = .ok fetched) :
    processRequest env s request =
      { response :=
          { success := true, error_message := "", current_weather := fetched
            forecast := [], city_suggestions := [] }
        service :=
          { s with
            stats_ :=
              { total_requests := s.stats_.total_requests + 1
                cache_hits := s.stats_.cache_hits
                api_calls := s.stats_.api_calls + 1
                total_response_time := s.stats_.total_response_time + env.elapsedMs } }
        calls :=
          [UpstreamCall.getCurrentWeather request.latitude request.longitude "auto"
            s.language_] } := by
  rw [processRequest_geo env s request htype,
    handleGeoLocation_found env s.countRequest request fetched hnz hfetch]
  rfl

theorem processRequest_search_results (env : Env) (s : WeatherService)
    (request : WeatherRequest) (results : List (String × String))
    (htype : request.type = SEARCH_CITY) (hquery : request.city_name ≠ "")
    (hsearch : env.api.searchCity request.city_name 10 = .ok results) :
    processRequest env s request =
      { response :=
          { success := !results.isEmpty
            error_message := if results.isEmpty then "未找到匹配的城市" else ""
            current_weather := env.default_data
            forecast := []
            city_suggestions := results }
        service :=
          { s with
            stats_ :=
              { total_requests := s.stats_.total_requests + 1
                cache_hits := s.stats_.cache_hits
                api_calls := s.stats_.api_calls
                total_response_time := s.stats_.total_response_time + env.elapsedMs } }
        calls := [UpstreamCall.searchCity request.city_name 10] } := by
  rw [processRequest_search env s request htype,
    handleCitySearch_results env s.countRequest request results hquery hsearch]
  rfl

/-- C11. Forecast projection: when the coordinates of a Forecast request resolve
to something other than (0,0) and the forecast fetch returns `fetched`, the
response is a success whose `forecast` is the daily sequence of `fetched`
mapped day by day, in order and with the same length: the record at position
`i` has the `temp_max` of day `i` as temperature, its weather code, and icon
name and condition computed from that code by `getIconNameFromCode` (daytime)
and `getConditionFromCode` (service language); `api_calls` grows by exactly 1. -/
theorem forecast_projection (env : Env) (s : WeatherService) (request : WeatherRequest)
    (lat lon : Double) (fetched : WeatherData)
    (htype : request.type = FORECAST)
    (hcoords : env.api.getCoordinates request.city_name request.country_code = .ok (lat, lon))
    (hnz : ¬ (lat = 0 ∧ lon = 0))
    (hfetch : env.api.getForecast lat lon (if request.days > 0 then request.days else 3) "auto"
      (if request.language = "" then s.language_ else request.language) = .ok fetched) :
    (processRequest env s request).response.success = true ∧
    (processRequest env s request).response.forecast =
      fetched.daily_forecast.map (fun day =>
        { env.default_data with
          temperature := day.temp_max
          weather_code := day.weather_code
          icon_name := getIconNameFromCode day.weather_code true
          condition := getConditionFromCode day.weather_code s.language_ }) ∧
    (processRequest env s request).response.forecast.length = fetched.daily_forecast.length ∧
    (∀ (i : Nat) (day : DailyData), fetched.daily_forecast[i]? = some day →
      ∃ r : WeatherData, (processRequest env s request).response.forecast[i]? = some r ∧
        r.temperature = day.temp_max ∧
        r.weather_code = day.weather_code ∧
        r.icon_name = getIconNameFromCode day.weather_code true ∧
        r.condition = getConditionFromCode day.weather_code s.language_) ∧
    (processRequest env s request).service.stats_.api_calls = s.stats_.api_calls + 1 := by
  rw [processRequest_forecast_found env s request lat lon fetched htype hcoords hnz hfetch]
  refine ⟨rfl, rfl, by simp, ?_, rfl⟩
  intro i day hday
  refine ⟨projectDaily env s day, ?_, rfl, rfl, rfl, rfl⟩
  simp [List.getElem?_map, hday]

/-- A five-day forecast for ("Paris", "FR") whose fetched record has two daily
entries: two projected records, rain at 9 degrees and overcast at 7 degrees. -/
theorem forecast_projection_witness :
    (processRequest forecastEnv WeatherService.create fiveDayRequest).response.success = true ∧
    (processRequest forecastEnv WeatherService.create fiveDayRequest).response.forecast =
      [ { blankData with
          temperature := 9, weather_code := 61, icon_name := "rain", condition := "小雨" },
        { blankData with
          temperature := 7, weather_code := 3, icon_name := "partly-cloudy-day"
          condition := "阴天" } ] ∧
    (processRequest forecastEnv WeatherService.create fiveDayRequest).service.stats_.api_calls
      = 1 :=
  have h := forecast_projection forecastEnv WeatherService.create fiveDayRequest 49 2
    parisForecast rfl rfl (by decide) rfl
  ⟨h.1, h.2.1.trans (by decide), h.2.2.2.2⟩

/-- C12. Empty search query, evaluated on the code: a SearchCity request with an
empty query on a fresh service, handled while the never-initialised `success`
member of the handler's response holds `true`.  The response carries the
validation message, the search is not invoked and the cache and the two
counters are untouched, but the returned `success` is `true`, not `false`. -/
theorem empty_search_success_not_false :
    (processRequest parisEnv WeatherService.create emptySearchRequest).response.success = true ∧
    (processRequest parisEnv WeatherService.create emptySearchRequest).response.error_message
      = "搜索查询不能为空" ∧
    (processRequest parisEnv WeatherService.create emptySearchRequest).calls = [] ∧
    (processRequest parisEnv WeatherService.create emptySearchRequest).service.cache_.cache_.entries
      = WeatherService.create.cache_.cache_.entries ∧
    (processRequest parisEnv WeatherService.create emptySearchRequest).service.stats_.cache_hits
      = 0 ∧
    (processRequest parisEnv WeatherService.create emptySearchRequest).service.stats_.api_calls
      = 0 := by
  decide

/-- C13. SearchCity result: for a non-empty query on which the search returns
`results`, the search is the only client operation invoked, once, with that
query and limit 10; `city_suggestions` is `results`; `success` is `true`
exactly when `results` is non-empty, then with an empty error message; when
`results` is empty the response is a failure carrying the no-match message.
The cache and the counters `cache_hits` and `api_calls` are untouched. -/
theorem search_city_result (env : Env) (s : WeatherService) (request : WeatherRequest)
    (results : List (String × String))
    (htype : request.type = SEARCH_CITY) (hquery : request.city_name ≠ "")
    (hsearch : env.api.searchCity request.city_name 10 = .ok results) :
    (processRequest env s request).calls = [UpstreamCall.searchCity request.city_name 10] ∧
    (processRequest env s request).response.city_suggestions = results ∧
    ((processRequest env s request).response.success = true ↔ results ≠ []) ∧
    (results ≠ [] → (processRequest env s request).response.error_message = "") ∧
    (results = [] →
      (processRequest env s request).response.success = false ∧
      (processRequest env s request).response.error_message = "未找到匹配的城市") ∧
    (processRequest env s request).service.cache_ = s.cache_ ∧
    (processRequest env s request).service.stats_.cache_hits = s.stats_.cache_hits ∧
    (processRequest env s request).service.stats_.api_calls = s.stats_.api_calls := by
  rw [processRequest_search_results env s request results htype hquery hsearch]
  refine ⟨rfl, rfl, ?_, ?_, ?_, rfl, rfl, rfl⟩
  · cases results <;> simp
  · intro hne
    cases results with
    | nil => exact absurd rfl hne
    | cons a rest => simp
  · intro hnil
    subst hnil
    simp

/-- The query "Par" answered with one suggestion, and answered with none. -/
theorem search_city_result_witness :
    ((processRequest parisEnv WeatherService.create searchRequest).calls =
        [UpstreamCall.searchCity "Par" 10] ∧
      (processRequest parisEnv WeatherService.create searchRequest).response.city_suggestions =
        [("Paris", "France")] ∧
      (processRequest parisEnv WeatherService.create searchRequest).response.success = true) ∧
    ((processRequest { parisEnv with api := noMatchClient } WeatherService.create
        searchRequest).response.success = false ∧
      (processRequest { parisEnv with api := noMatchClient } WeatherService.create
        searchRequest).response.error_message = "未找到匹配的城市") :=
  have h1 := search_city_result parisEnv WeatherService.create searchRequest
    [("Paris", "France")] rfl (by decide) rfl
  have h2 := search_city_result { parisEnv with api := noMatchClient } WeatherService.create
    searchRequest [] rfl (by decide) rfl
  ⟨⟨h1.1, h1.2.1, h1.2.2.1.mpr (by decide)⟩, h2.2.2.2.2.1 rfl⟩

/-- C14. GeoLocation handler, evaluated on the code: a GeoLocation request at
(0, 0) on a fresh service, handled while the never-initialised `success`
member of the handler's response holds `true`.  The response carries the
invalid-coordinates message and no client operation is invoked, but the
returned `success` is `true`, not `false`. -/
theorem geo_origin_success_not_false :
    (processRequest parisEnv WeatherService.create originRequest).response.success = true ∧
    (processRequest parisEnv WeatherService.create originRequest).response.error_message
      = "无效的经纬度" ∧
    (processRequest parisEnv WeatherService.create originRequest).calls = [] := by
  decide

/-- C15. Unknown request variant: for a request whose type is none of the four
enumerators, `processRequest` returns `success = false` with the
unknown-request-type message and an otherwise fresh response, invokes no
client operation, and changes nothing in the service but `total_requests`
(plus 1) and `total_response_time` (plus the measured duration). -/
theorem unknown_request_type (env : Env) (s : WeatherService) (request : WeatherRequest)
    (h0 : request.type ≠ CURRENT_WEATHER) (h1 : request.type ≠ FORECAST)
    (h2 : request.type ≠ SEARCH_CITY) (h3 : request.type ≠ GEO_LOCATION) :
    (processRequest env s request).response =
      { success := false, error_message := "未知请求类型"
        current_weather := env.default_data, forecast := [], city_suggestions := [] } ∧
    (processRequest env s request).calls = [] ∧
    (processRequest env s request).service =
      { s with
        stats_ :=
          { total_requests := s.stats_.total_requests + 1
            cache_hits := s.stats_.cache_hits
            api_calls := s.stats_.api_calls
            total_response_time := s.stats_.total_response_time + env.elapsedMs } } := by
  rw [processRequest_unknown env s request h0 h1 h2 h3]
  exact ⟨rfl, rfl, rfl⟩

/-- A request of type 7 on a fresh service. -/
theorem unknown_request_type_witness :
    (processRequest parisEnv WeatherService.create unknownRequest).response =
      { success := false, error_message := "未知请求类型"
        current_weather := blankData, forecast := [], city_suggestions := [] } ∧
    (processRequest parisEnv WeatherService.create unknownRequest).calls = [] :=
  have h := unknown_request_type parisEnv WeatherService.create unknownRequest
    (by decide) (by decide) (by decide) (by decide)
  ⟨h.1, h.2.1⟩

/-! ## Theorems: statistics -/

theorem fetchCurrentWeather_stats (env : Env) (s : WeatherService) (request : WeatherRequest) :
    (fetchCurrentWeather env s request).service.stats_ = s.stats_ ∨
    (fetchCurrentWeather env s request).service.stats_ =
      { s.stats_ with api_calls := s.stats_.api_calls + 1 } := by
  unfold fetchCurrentWeather
  cases env.api.getCoordinates request.city_name request.country_code with
  | error m => left; rfl
  | ok coords =>
    by_cases hz : coords.1 = 0 ∧ coords.2 = 0
    · left
      simp only [if_pos hz]
    · simp only [if_neg hz]
      cases env.api.getCurrentWeather coords.1 coords.2 "auto" (effectiveLanguage s request) with
      | error m => left; rfl
      | ok fetched =>
        right
        by_cases hen : s.cache_enabled_ = true
        · simp [hen, WeatherService.countApiCall]
        · simp [hen, WeatherService.countApiCall]

theorem handleCurrentWeather_stats (env : Env) (s : WeatherService) (request : WeatherRequest) :
    (handleCurrentWeather env s request).service.stats_ = s.stats_ ∨
    (handleCurrentWeather env s request).service.stats_ =
      { s.stats_ with api_calls := s.stats_.api_calls + 1 } ∨
    (handleCurrentWeather env s request).service.stats_ =
      { s.stats_ with cache_hits := s.stats_.cache_hits + 1 } := by
  unfold handleCurrentWeather
  by_cases hen : s.cache_enabled_ = true
  · rw [if_pos hen]
    generalize s.cache_.get (currentCacheKey request) env.tGet = got
    obtain ⟨hit, cache⟩ := got
    cases hit with
    | some cached_data => right; right; rfl
    | none =>
      rcases fetchCurrentWeather_stats env { s with cache_ := cache } request with h | h
      · left; exact h
      · right; left; exact h
  · rw [if_neg hen]
    rcases fetchCurrentWeather_stats env s request with h | h
    · left; exact h
    · right; left; exact h

theorem handleForecast_stats (env : Env) (s : WeatherService) (request : WeatherRequest) :
    (handleForecast env s request).service.stats_ = s.stats_ ∨
    (handleForecast env s request).service.stats_ =
      { s.stats_ with api_calls := s.stats_.api_calls + 1 } := by
  unfold handleForecast
  cases env.api.getCoordinates request.city_name request.country_code with
  | error m => left; rfl
  | ok coords =>
    by_cases hz : coords.1 = 0 ∧ coords.2 = 0
    · left
      simp only [if_pos hz]
    · simp only [if_neg hz]
      cases env.api.getForecast coords.1 coords.2 (if request.days > 0 then request.days else 3)
          "auto" (effectiveLanguage s request) with
      | error m => left; rfl
      | ok fetched => right; rfl

theorem handleCitySearch_service (env : Env) (s : WeatherService) (request : WeatherRequest) :
    (handleCitySearch env s request).service = s := by
  unfold handleCitySearch
  by_cases hq : request.city_name = ""
  · simp only [if_pos hq]
  · simp only [if_neg hq]
    cases env.api.searchCity request.city_name 10 <;> rfl

theorem handleGeoLocation_stats (env : Env) (s : WeatherService) (request : WeatherRequest) :
    (handleGeoLocation env s request).service.stats_ = s.stats_ ∨
    (handleGeoLocation env s request).service.stats_ =
      { s.stats_ with api_calls := s.stats_.api_calls + 1 } := by
  unfold handleGeoLocation
  by_cases hz : request.latitude = 0 ∧ request.longitude = 0
  · left
    simp only [if_pos hz]
  · simp only [if_neg hz]
    cases env.api.getCurrentWeather request.latitude request.longitude "auto" s.language_ with
    | error m => left; rfl
    | ok fetched => right; rfl

theorem dispatch_stats (env : Env) (s : WeatherService) (request : WeatherRequest)
    (response : WeatherResponse) :
    (dispatch env s request response).service.stats_ = s.stats_ ∨
    (dispatch env s request response).service.stats_ =
      { s.stats_ with api_calls := s.stats_.api_calls + 1 } ∨
    (dispatch env s request response).service.stats_ =
      { s.stats_ with cache_hits := s.stats_.cache_hits + 1 } := by
  unfold dispatch
  split
  · exact handleCurrentWeather_stats env s request
  · split
    · rcases handleForecast_stats env s request with h | h
      · left; exact h
      · right; left; exact h
    · split
      · left
        rw [handleCitySearch_service]
      · split
        · rcases handleGeoLocation_stats env s request with h | h
          · left; exact h
          · right; left; exact h
        · left; rfl

theorem processRequest_stats (env : Env) (s : WeatherService) (request : WeatherRequest) :
    (processRequest env s request).service.stats_.total_requests = s.stats_.total_requests + 1 ∧
    (processRequest env s request).service.stats_.total_response_time =
      s.stats_.total_response_time + env.elapsedMs ∧
    (((processRequest env s request).service.stats_.cache_hits = s.stats_.cache_hits ∧
        (processRequest env s request).service.stats_.api_calls = s.stats_.api_calls) ∨
      ((processRequest env s request).service.stats_.cache_hits = s.stats_.cache_hits ∧
        (processRequest env s request).service.stats_.api_calls = s.stats_.api_calls + 1) ∨
      ((processRequest env s request).service.stats_.cache_hits = s.stats_.cache_hits + 1 ∧
        (processRequest env s request).service.stats_.api_calls = s.stats_.api_calls)) := by
  have hd := dispatch_stats env s.countRequest request
    ({ env.freshResponse with success := false } : WeatherResponse)
  simp only [processRequest, WeatherService.addResponseTime]
  rcases hd with h | h | h
  · rw [h]
    exact ⟨rfl, rfl, Or.inl ⟨rfl, rfl⟩⟩
  · rw [h]
    exact ⟨rfl, rfl, Or.inr (Or.inl ⟨rfl, rfl⟩)⟩
  · rw [h]
    exact ⟨rfl, rfl, Or.inr (Or.inr ⟨rfl, rfl⟩)⟩

theorem processAll_stats (calls : List (Env × WeatherRequest)) :
    ∀ s : WeatherService,
      (processAll s calls).stats_.total_requests = s.stats_.total_requests + calls.length ∧
      (processAll s calls).stats_.total_response_time =
        s.stats_.total_response_time + (calls.map (fun call => call.1.elapsedMs)).sum ∧
      s.stats_.cache_hits ≤ (processAll s calls).stats_.cache_hits ∧
      s.stats_.api_calls ≤ (processAll s calls).stats_.api_calls ∧
      (processAll s calls).stats_.cache_hits + (processAll s calls).stats_.api_calls ≤
        s.stats_.cache_hits + s.stats_.api_calls + calls.length := by
  induction calls with
  | nil =>
    intro s
    simp [processAll]
  | cons call rest ih =>
    intro s
    obtain ⟨env, request⟩ := call
    obtain ⟨h1, h2, h3, h4, h5⟩ := ih (processRequest env s request).service
    obtain ⟨g1, g2, g3⟩ := processRequest_stats env s request
    simp only [processAll, List.length_cons, List.map_cons, List.sum_cons, Nat.cast_add,
      Nat.cast_one]
    refine ⟨by omega, by omega, ?_, ?_, ?_⟩
    · rcases g3 with ⟨a, b⟩ | ⟨a, b⟩ | ⟨a, b⟩ <;> omega
    · rcases g3 with ⟨a, b⟩ | ⟨a, b⟩ | ⟨a, b⟩ <;> omega
    · rcases g3 with ⟨a, b⟩ | ⟨a, b⟩ | ⟨a, b⟩ <;> omega

/-- C16, counterexample.  `high_resolution_clock` need not be steady; when the
end reading precedes the start reading, the single call made on a freshly
constructed service leaves `total_response_time` at -5, below its initial 0. -/
theorem response_time_decreases :
    WeatherService.create.stats_.total_response_time = 0 ∧
    (processRequest clockSetBackEnv WeatherService.create parisRequest).service.stats_.total_response_time
      = -5 ∧
    (processRequest clockSetBackEnv WeatherService.create parisRequest).service.stats_.total_response_time
      < WeatherService.create.stats_.total_response_time := by
  decide

/-- C16. Statistics counts: after any sequence of `processRequest` calls on a
freshly constructed service, `total_requests` equals the number of calls and
`cache_hits` and `api_calls` lie between 0 and that number; a single call, from
any state, decreases none of `total_requests`, `cache_hits` and `api_calls`;
and it changes `total_response_time` by exactly its measured duration, so that
counter does not decrease exactly when the measured duration is not
negative. -/
theorem statistics_counts (calls : List (Env × WeatherRequest)) (env : Env)
    (s : WeatherService) (request : WeatherRequest) :
    ((processAll WeatherService.create calls).stats_.total_requests = calls.length ∧
      0 ≤ (processAll WeatherService.create calls).stats_.cache_hits ∧
      (processAll WeatherService.create calls).stats_.cache_hits ≤ calls.length ∧
      0 ≤ (processAll WeatherService.create calls).stats_.api_calls ∧
      (processAll WeatherService.create calls).stats_.api_calls ≤ calls.length) ∧
    (s.stats_.total_requests ≤ (processRequest env s request).service.stats_.total_requests ∧
      s.stats_.cache_hits ≤ (processRequest env s request).service.stats_.cache_hits ∧
      s.stats_.api_calls ≤ (processRequest env s request).service.stats_.api_calls ∧
      (processRequest env s request).service.stats_.total_response_time =
        s.stats_.total_response_time + env.elapsedMs ∧
      (s.stats_.total_response_time ≤
          (processRequest env s request).service.stats_.total_response_time ↔
        0 ≤ env.elapsedMs)) := by
  obtain ⟨h1, _, h3, h4, h5⟩ := processAll_stats calls WeatherService.create
  obtain ⟨g1, g2, g3⟩ := processRequest_stats env s request
  have c1 : WeatherService.create.stats_.total_requests = 0 := rfl
  have c2 : WeatherService.create.stats_.cache_hits = 0 := rfl
  have c3 : WeatherService.create.stats_.api_calls = 0 := rfl
  rw [c1] at h1
  rw [c2] at h3 h5
  rw [c3] at h4 h5
  refine ⟨⟨by omega, by omega, by omega, by omega, by omega⟩, by omega, ?_, ?_, g2, ?_⟩
  · rcases g3 with ⟨a, b⟩ | ⟨a, b⟩ | ⟨a, b⟩ <;> omega
  · rcases g3 with ⟨a, b⟩ | ⟨a, b⟩ | ⟨a, b⟩ <;> omega
  · rw [g2]
    omega

/-- C17. Path-independent latency accounting: every `processRequest` call, on
every path, leaves `total_response_time` increased by exactly its measured
duration; after any sequence of calls on a fresh service `total_response_time`
is the sum of the measured durations and `total_requests` their number; and
the average of the `stats` command is `total_response_time / total_requests`
(truncating division) when `total_requests > 0` and 0 when it is 0. -/
theorem latency_accounting (calls : List (Env × WeatherRequest)) (env : Env)
    (s : WeatherService) (request : WeatherRequest) (stats : Statistics) :
    (processRequest env s request).service.stats_.total_response_time =
      s.stats_.total_response_time + env.elapsedMs ∧
    (processAll WeatherService.create calls).stats_.total_response_time =
      (calls.map (fun call => call.1.elapsedMs)).sum ∧
    (processAll WeatherService.create calls).stats_.total_requests = calls.length ∧
    (stats.total_requests > 0 →
      averageResponseTime stats = Int.tdiv stats.total_response_time stats.total_requests) ∧
    (stats.total_requests = 0 → averageResponseTime stats = 0) ∧
    averageResponseTime (processAll WeatherService.create calls).getStatistics =
      (if calls.length = 0 then 0
       else Int.tdiv (calls.map (fun call => call.1.elapsedMs)).sum calls.length) := by
  obtain ⟨h1, h2, _⟩ := processAll_stats calls WeatherService.create
  have c1 : WeatherService.create.stats_.total_requests = 0 := rfl
  have c4 : WeatherService.create.stats_.total_response_time = 0 := rfl
  rw [c1, Int.zero_add] at h1
  rw [c4, Int.zero_add] at h2
  refine ⟨(processRequest_stats env s request).2.1, h2, h1, ?_, ?_, ?_⟩
  · intro hpos
    simp [averageResponseTime, hpos]
  · intro hzero
    simp [averageResponseTime, hzero]
  · simp only [averageResponseTime, WeatherService.getStatistics, h1, h2]
    by_cases hlen : calls.length = 0
    · simp [hlen]
    · have hpos : (calls.length : Int) > 0 := by omega
      rw [if_pos hpos, if_neg hlen]

/-! ## Theorems: the shape of responses -/

theorem get_hit_entry (c : WeatherCache) (key : String) (now : Int) (d : WeatherData)
    (h : (c.get key now).1 = some d) :
    ∃ e, c.find key = some e ∧ now < e.expiry ∧ e.data = d := by
  cases hfind : c.find key with
  | none =>
    rw [get_of_find_none c key now hfind] at h
    cases h
  | some e =>
    by_cases hfresh : now < e.expiry
    · rw [get_of_find_fresh c key now e hfind hfresh] at h
      exact ⟨e, rfl, hfresh, Option.some.inj h⟩
    · rw [get_of_find_expired c key now e hfind hfresh] at h
      cases h

theorem fetchCurrentWeather_success (env : Env) (s : WeatherService) (request : WeatherRequest)
    (r : WeatherResponse) (hinit : env.uninit_success = false)
    (hres : (fetchCurrentWeather env s request).result = .ok r) (hsucc : r.success = true) :
    r.error_message = "" ∧ r.forecast = [] ∧ r.city_suggestions = [] ∧
    ∃ (lat lon : Double) (fetched : WeatherData),
      env.api.getCoordinates request.city_name request.country_code = .ok (lat, lon) ∧
      env.api.getCurrentWeather lat lon "auto" (effectiveLanguage s request) = .ok fetched ∧
      r.current_weather =
        { fetched with
          city := request.city_name, country := request.country_code
          latitude := lat, longitude := lon } := by
  cases hc : env.api.getCoordinates request.city_name request.country_code with
  | error m =>
    unfold fetchCurrentWeather at hres
    simp [hc] at hres
  | ok coords =>
    obtain ⟨lat, lon⟩ := coords
    by_cases hz : lat = 0 ∧ lon = 0
    · obtain ⟨h1, h2⟩ := hz
      subst h1 h2
      rw [fetchCurrentWeather_notFound env s request hc] at hres
      simp only [Except.ok.injEq] at hres
      subst hres
      simp [Env.freshResponse, hinit] at hsucc
    · cases hf : env.api.getCurrentWeather lat lon "auto" (effectiveLanguage s request) with
      | error m =>
        unfold fetchCurrentWeather at hres
        simp [hc, hz, hf] at hres
      | ok fetched =>
        rw [fetchCurrentWeather_found env s request lat lon fetched hc hz hf] at hres
        simp only [Except.ok.injEq] at hres
        subst hres
        exact ⟨rfl, rfl, rfl, lat, lon, fetched, rfl, hf, rfl⟩

theorem handleCurrentWeather_success (env : Env) (s : WeatherService)
    (request : WeatherRequest) (r : WeatherResponse) (hinit : env.uninit_success = false)
    (hres : (handleCurrentWeather env s request).result = .ok r) (hsucc : r.success = true) :
    r.error_message = "" ∧ r.forecast = [] ∧ r.city_suggestions = [] ∧
    ((∃ e, s.cache_enabled_ = true ∧ s.cache_.find (currentCacheKey request) = some e ∧
        env.tGet < e.expiry ∧ r.current_weather = e.data) ∨
      ∃ (lat lon : Double) (fetched : WeatherData),
        env.api.getCoordinates request.city_name request.country_code = .ok (lat, lon) ∧
        env.api.getCurrentWeather lat lon "auto" (effectiveLanguage s request) = .ok fetched ∧
        r.current_weather =
          { fetched with
            city := request.city_name, country := request.country_code
            latitude := lat, longitude := lon }) := by
  unfold handleCurrentWeather at hres
  by_cases hen : s.cache_enabled_ = true
  · rw [if_pos hen] at hres
    rcases hg : s.cache_.get (currentCacheKey request) env.tGet with ⟨hit, cache⟩
    rw [hg] at hres
    cases hit with
    | some cached_data =>
      simp only [Except.ok.injEq] at hres
      subst hres
      obtain ⟨e, he1, he2, he3⟩ := get_hit_entry s.cache_ (currentCacheKey request) env.tGet
        cached_data (by rw [hg])
      exact ⟨rfl, rfl, rfl, Or.inl ⟨e, hen, he1, he2, he3.symm⟩⟩
    | none =>
      obtain ⟨a, b, c, d⟩ := fetchCurrentWeather_success env { s with cache_ := cache } request r
        hinit hres hsucc
      exact ⟨a, b, c, Or.inr d⟩
  · rw [if_neg hen] at hres
    obtain ⟨a, b, c, d⟩ := fetchCurrentWeather_success env s request r hinit hres hsucc
    exact ⟨a, b, c, Or.inr d⟩

theorem handleGeoLocation_success (env : Env) (s : WeatherService) (request : WeatherRequest)
    (r : WeatherResponse) (hinit : env.uninit_success = false)
    (hres : (handleGeoLocation env s request).result = .ok r) (hsucc : r.success = true) :
    r.error_message = "" ∧ r.forecast = [] ∧ r.city_suggestions = [] ∧
    env.api.getCurrentWeather request.latitude request.longitude "auto" s.language_
      = .ok r.current_weather := by
  by_cases hz : request.latitude = 0 ∧ request.longitude = 0
  · rw [handleGeoLocation_origin env s request hz] at hres
    simp only [Except.ok.injEq] at hres
    subst hres
    simp [Env.freshResponse, hinit] at hsucc
  · cases hf : env.api.getCurrentWeather request.latitude request.longitude "auto"
        s.language_ with
    | error m =>
      unfold handleGeoLocation at hres
      simp [hz, hf] at hres
    | ok fetched =>
      rw [handleGeoLocation_found env s request fetched hz hf] at hres
      simp only [Except.ok.injEq] at hres
      subst hres
      exact ⟨rfl, rfl, rfl, rfl⟩

theorem handleForecast_success (env : Env) (s : WeatherService) (request : WeatherRequest)
    (r : WeatherResponse) (hinit : env.uninit_success = false)
    (hres : (handleForecast env s request).result = .ok r) (hsucc : r.success = true) :
    r.error_message = "" ∧ r.city_suggestions = [] ∧
    ∃ (lat lon : Double) (fetched : WeatherData),
      env.api.getCoordinates request.city_name request.country_code = .ok (lat, lon) ∧
      env.api.getForecast lat lon (if request.days > 0 then request.days else 3) "auto"
        (effectiveLanguage s request) = .ok fetched ∧
      r.current_weather =
        { fetched with city := request.city_name, country := request.country_code } ∧
      r.forecast = fetched.daily_forecast.map (projectDaily env s) := by
  cases hc : env.api.getCoordinates request.city_name request.country_code with
  | error m =>
    unfold handleForecast at hres
    simp [hc] at hres
  | ok coords =>
    obtain ⟨lat, lon⟩ := coords
    by_cases hz : lat = 0 ∧ lon = 0
    · obtain ⟨h1, h2⟩ := hz
      subst h1 h2
      rw [handleForecast_notFound env s request hc] at hres
      simp only [Except.ok.injEq] at hres
      subst hres
      simp [Env.freshResponse, hinit] at hsucc
    · cases hf : env.api.getForecast lat lon (if request.days > 0 then request.days else 3)
          "auto" (effectiveLanguage s request) with
      | error m =>
        unfold handleForecast at hres
        simp [hc, hz, hf] at hres
      | ok fetched =>
        rw [handleForecast_found env s request lat lon fetched hc hz hf] at hres
        simp only [Except.ok.injEq] at hres
        subst hres
        exact ⟨rfl, rfl, lat, lon, fetched, rfl, hf, rfl, rfl⟩

theorem handleCitySearch_success (env : Env) (s : WeatherService) (request : WeatherRequest)
    (r : WeatherResponse) (hinit : env.uninit_success = false)
    (hres : (handleCitySearch env s request).result = .ok r) (hsucc : r.success = true) :
    r.error_message = "" ∧ r.forecast = [] ∧ r.current_weather = env.default_data ∧
    r.city_suggestions ≠ [] ∧
    env.api.searchCity request.city_name 10 = .ok r.city_suggestions := by
  by_cases hq : request.city_name = ""
  · rw [handleCitySearch_empty env s request hq] at hres
    simp only [Except.ok.injEq] at hres
    subst hres
    simp [Env.freshResponse, hinit] at hsucc
  · cases hs : env.api.searchCity request.city_name 10 with
    | error m =>
      unfold handleCitySearch at hres
      simp [hq, hs] at hres
    | ok results =>
      rw [handleCitySearch_results env s request results hq hs] at hres
      simp only [Except.ok.injEq] at hres
      subst hres
      cases results with
      | nil => simp at hsucc
      | cons a rest => simp

theorem processRequest_success_error_empty (env : Env) (s : WeatherService)
    (request : WeatherRequest) (hinit : env.uninit_success = false)
    (hsucc : (processRequest env s request).response.success = true) :
    (processRequest env s request).response.error_message = "" := by
  by_cases h0 : request.type = CURRENT_WEATHER
  · rw [processRequest_current env s request h0] at hsucc ⊢
    cases hr : (handleCurrentWeather env s.countRequest request).result with
    | error m => simp [hr] at hsucc
    | ok r =>
      simp only [hr] at hsucc ⊢
      exact (handleCurrentWeather_success env _ request r hinit hr hsucc).1
  · by_cases h1 : request.type = FORECAST
    · rw [processRequest_forecast env s request h1] at hsucc ⊢
      cases hr : (handleForecast env s.countRequest request).result with
      | error m => simp [hr] at hsucc
      | ok r =>
        simp only [hr] at hsucc ⊢
        exact (handleForecast_success env _ request r hinit hr hsucc).1
    · by_cases h2 : request.type = SEARCH_CITY
      · rw [processRequest_search env s request h2] at hsucc ⊢
        cases hr : (handleCitySearch env s.countRequest request).result with
        | error m => simp [hr] at hsucc
        | ok r =>
          simp only [hr] at hsucc ⊢
          exact (handleCitySearch_success env _ request r hinit hr hsucc).1
      · by_cases h3 : request.type = GEO_LOCATION
        · rw [processRequest_geo env s request h3] at hsucc ⊢
          cases hr : (handleGeoLocation env s.countRequest request).result with
          | error m => simp [hr] at hsucc
          | ok r =>
            simp only [hr] at hsucc ⊢
            exact (handleGeoLocation_success env _ request r hinit hr hsucc).1
        · rw [processRequest_unknown env s request h0 h1 h2 h3] at hsucc
          simp at hsucc

theorem freshResponse_marked (env : Env) :
    ({ env with uninit_success := false } : Env).freshResponse =
      { env.freshResponse with success := false } := rfl

theorem fetchCurrentWeather_marked (env : Env) (s : WeatherService) (request : WeatherRequest)
    (r : WeatherResponse)
    (hres : (fetchCurrentWeather { env with uninit_success := false } s request).result = .ok r)
    (hsucc : r.success = true) :
    (fetchCurrentWeather env s request).result = .ok r := by
  unfold fetchCurrentWeather at hres ⊢
  simp only [] at hres ⊢
  cases hc : env.api.getCoordinates request.city_name request.country_code with
  | error m => simp [hc] at hres
  | ok coords =>
    simp only [hc] at hres ⊢
    by_cases hz : coords.1 = 0 ∧ coords.2 = 0
    · simp only [if_pos hz, Except.ok.injEq] at hres
      subst hres
      simp [Env.freshResponse] at hsucc
    · simp only [if_neg hz] at hres ⊢
      cases hf : env.api.getCurrentWeather coords.1 coords.2 "auto"
          (effectiveLanguage s request) with
      | error m => simp [hf] at hres
      | ok fetched =>
        simp only [hf, Except.ok.injEq] at hres ⊢
        subst hres
        rfl

theorem handleCurrentWeather_marked (env : Env) (s : WeatherService) (request : WeatherRequest)
    (r : WeatherResponse)
    (hres : (handleCurrentWeather { env with uninit_success := false } s request).result = .ok r)
    (hsucc : r.success = true) :
    (handleCurrentWeather env s request).result = .ok r := by
  unfold handleCurrentWeather at hres ⊢
  by_cases hen : s.cache_enabled_ = true
  · rw [if_pos hen] at hres ⊢
    rcases hg : s.cache_.get (currentCacheKey request) env.tGet with ⟨hit, cache⟩
    simp only [hg] at hres ⊢
    cases hit with
    | some cached_data =>
      simp only [Except.ok.injEq] at hres ⊢
      subst hres
      rfl
    | none => exact fetchCurrentWeather_marked env _ request r hres hsucc
  · rw [if_neg hen] at hres ⊢
    exact fetchCurrentWeather_marked env s request r hres hsucc

theorem handleForecast_marked (env : Env) (s : WeatherService) (request : WeatherRequest)
    (r : WeatherResponse)
    (hres : (handleForecast { env with uninit_success := false } s request).result = .ok r)
    (hsucc : r.success = true) :
    (handleForecast env s request).result = .ok r := by
  unfold handleForecast at hres ⊢
  simp only [] at hres ⊢
  cases hc : env.api.getCoordinates request.city_name request.country_code with
  | error m => simp [hc] at hres
  | ok coords =>
    simp only [hc] at hres ⊢
    by_cases hz : coords.1 = 0 ∧ coords.2 = 0
    · simp only [if_pos hz, Except.ok.injEq] at hres
      subst hres
      simp [Env.freshResponse] at hsucc
    · simp only [if_neg hz] at hres ⊢
      cases hf : env.api.getForecast coords.1 coords.2
          (if request.days > 0 then request.days else 3) "auto"
          (effectiveLanguage s request) with
      | error m => simp [hf] at hres
      | ok fetched =>
        simp only [hf, Except.ok.injEq] at hres ⊢
        subst hres
        rfl

theorem handleCitySearch_marked (env : Env) (s : WeatherService) (request : WeatherRequest)
    (r : WeatherResponse)
    (hres : (handleCitySearch { env with uninit_success := false } s request).result = .ok r)
    (hsucc : r.success = true) :
    (handleCitySearch env s request).result = .ok r := by
  unfold handleCitySearch at hres ⊢
  simp only [] at hres ⊢
  by_cases hq : request.city_name = ""
  · simp only [if_pos hq, Except.ok.injEq] at hres
    subst hres
    simp [Env.freshResponse] at hsucc
  · simp only [if_neg hq] at hres ⊢
    cases hs : env.api.searchCity request.city_name 10 with
    | error m => simp [hs] at hres
    | ok results =>
      simp only [hs, Except.ok.injEq] at hres ⊢
      subst hres
      rfl

theorem handleGeoLocation_marked (env : Env) (s : WeatherService) (request : WeatherRequest)
    (r : WeatherResponse)
    (hres : (handleGeoLocation { env with uninit_success := false } s request).result = .ok r)
    (hsucc : r.success = true) :
    (handleGeoLocation env s request).result = .ok r := by
  unfold handleGeoLocation at hres ⊢
  simp only [] at hres ⊢
  by_cases hz : request.latitude = 0 ∧ request.longitude = 0
  · simp only [if_pos hz, Except.ok.injEq] at hres
    subst hres
    simp [Env.freshResponse] at hsucc
  · simp only [if_neg hz] at hres ⊢
    cases hf : env.api.getCurrentWeather request.latitude request.longitude "auto"
        s.language_ with
    | error m => simp [hf] at hres
    | ok fetched =>
      simp only [hf, Except.ok.injEq] at hres ⊢
      subst hres
      rfl

theorem processRequest_marked (env : Env) (s : WeatherService) (request : WeatherRequest)
    (hsucc : (processRequest { env with uninit_success := false } s request).response.success
      = true) :
    (processRequest env s request).response =
      (processRequest { env with uninit_success := false } s request).response := by
  by_cases h0 : request.type = CURRENT_WEATHER
  · rw [processRequest_current _ s request h0] at hsucc
    rw [processRequest_current env s request h0,
      processRequest_current { env with uninit_success := false } s request h0]
    cases hr : (handleCurrentWeather { env with uninit_success := false } s.countRequest
        request).result with
    | error m => simp [hr] at hsucc
    | ok r =>
      simp only [hr] at hsucc ⊢
      rw [handleCurrentWeather_marked env _ request r hr hsucc]
  · by_cases h1 : request.type = FORECAST
    · rw [processRequest_forecast _ s request h1] at hsucc
      rw [processRequest_forecast env s request h1,
        processRequest_forecast { env with uninit_success := false } s request h1]
      cases hr : (handleForecast { env with uninit_success := false } s.countRequest
          request).result with
      | error m => simp [hr] at hsucc
      | ok r =>
        simp only [hr] at hsucc ⊢
        rw [handleForecast_marked env _ request r hr hsucc]
    · by_cases h2 : request.type = SEARCH_CITY
      · rw [processRequest_search _ s request h2] at hsucc
        rw [processRequest_search env s request h2,
          processRequest_search { env with uninit_success := false } s request h2]
        cases hr : (handleCitySearch { env with uninit_success := false } s.countRequest
            request).result with
        | error m => simp [hr] at hsucc
        | ok r =>
          simp only [hr] at hsucc ⊢
          rw [handleCitySearch_marked env _ request r hr hsucc]
      · by_cases h3 : request.type = GEO_LOCATION
        · rw [processRequest_geo _ s request h3] at hsucc
          rw [processRequest_geo env s request h3,
            processRequest_geo { env with uninit_success := false } s request h3]
          cases hr : (handleGeoLocation { env with uninit_success := false } s.countRequest
              request).result with
          | error m => simp [hr] at hsucc
          | ok r =>
            simp only [hr] at hsucc ⊢
            rw [handleGeoLocation_marked env _ request r hr hsucc]
        · rw [processRequest_unknown _ s request h0 h1 h2 h3] at hsucc
          simp at hsucc

/-- C18. Response invariant, evaluated on the code: a Forecast request for
"Atlantis" on a fresh service, coordinates resolved to (0.0, 0.0), handled
while the never-initialised `success` member of the handler's response holds
`true`.  The returned response has `success = true` together with a non-empty
error message. -/
theorem success_with_error_message :
    (processRequest nowhereEnv WeatherService.create lostForecastRequest).response.success
      = true ∧
    (processRequest nowhereEnv WeatherService.create lostForecastRequest).response.error_message
      = "无法找到城市坐标" ∧
    (processRequest nowhereEnv WeatherService.create lostForecastRequest).response.error_message
      ≠ "" := by
  decide

/-- C19, the claim as stated fails for the Forecast variant: a successful
five-day forecast for ("Paris", "FR") (the uninitialised member holds `false`,
so `success` was assigned by the handler) has a non-empty forecast sequence and
also carries the fetched record, with city and country overwritten, in
`current_weather`, which is not left at its default. -/
theorem forecast_also_sets_current_weather :
    (processRequest forecastEnv WeatherService.create fiveDayRequest).response.success = true ∧
    (processRequest forecastEnv WeatherService.create fiveDayRequest).response.forecast ≠ [] ∧
    (processRequest forecastEnv WeatherService.create fiveDayRequest).response.current_weather =
      { parisForecast with city := "Paris", country := "FR" } ∧
    (processRequest forecastEnv WeatherService.create fiveDayRequest).response.current_weather ≠
      forecastEnv.default_data := by
  decide

/-- The payloads of a response with `success = true`, for each request
variant, when the never-initialised member holds `false`. -/
theorem success_payloads_initialised (env : Env) (s : WeatherService) (request : WeatherRequest)
    (hinit : env.uninit_success = false)
    (hsucc : (processRequest env s request).response.success = true) :
    (request.type = CURRENT_WEATHER →
      (processRequest env s request).response.forecast = [] ∧
      (processRequest env s request).response.city_suggestions = [] ∧
      ((∃ e, s.cache_enabled_ = true ∧ s.cache_.find (currentCacheKey request) = some e ∧
          env.tGet < e.expiry ∧ (processRequest env s request).response.current_weather = e.data) ∨
        ∃ (lat lon : Double) (fetched : WeatherData),
          env.api.getCoordinates request.city_name request.country_code = .ok (lat, lon) ∧
          env.api.getCurrentWeather lat lon "auto"
            (if request.language = "" then s.language_ else request.language) = .ok fetched ∧
          (processRequest env s request).response.current_weather =
            { fetched with
              city := request.city_name, country := request.country_code
              latitude := lat, longitude := lon })) ∧
    (request.type = GEO_LOCATION →
      (processRequest env s request).response.forecast = [] ∧
      (processRequest env s request).response.city_suggestions = [] ∧
      env.api.getCurrentWeather request.latitude request.longitude "auto" s.language_ =
        .ok (processRequest env s request).response.current_weather) ∧
    (request.type = FORECAST →
      (processRequest env s request).response.city_suggestions = [] ∧
      ∃ (lat lon : Double) (fetched : WeatherData),
        env.api.getCoordinates request.city_name request.country_code = .ok (lat, lon) ∧
        env.api.getForecast lat lon (if request.days > 0 then request.days else 3) "auto"
          (if request.language = "" then s.language_ else request.language) = .ok fetched ∧
        (processRequest env s request).response.current_weather =
          { fetched with city := request.city_name, country := request.country_code } ∧
        (processRequest env s request).response.forecast =
          fetched.daily_forecast.map (fun day =>
            { env.default_data with
              temperature := day.temp_max
              weather_code := day.weather_code
              icon_name := getIconNameFromCode day.weather_code true
              condition := getConditionFromCode day.weather_code s.language_ })) ∧
    (request.type = SEARCH_CITY →
      (processRequest env s request).response.city_suggestions ≠ [] ∧
      env.api.searchCity request.city_name 10 =
        .ok (processRequest env s request).response.city_suggestions ∧
      (processRequest env s request).response.forecast = [] ∧
      (processRequest env s request).response.current_weather = env.default_data) := by
  refine ⟨?_, ?_, ?_, ?_⟩
  · intro htype
    rw [processRequest_current env s request htype] at hsucc ⊢
    cases hr : (handleCurrentWeather env s.countRequest request).result with
    | error m => simp [hr] at hsucc
    | ok r =>
      simp only [hr] at hsucc ⊢
      obtain ⟨_, b, c, d⟩ := handleCurrentWeather_success env _ request r hinit hr hsucc
      exact ⟨b, c, d⟩
  · intro htype
    rw [processRequest_geo env s request htype] at hsucc ⊢
    cases hr : (handleGeoLocation env s.countRequest request).result with
    | error m => simp [hr] at hsucc
    | ok r =>
      simp only [hr] at hsucc ⊢
      obtain ⟨_, b, c, d⟩ := handleGeoLocation_success env _ request r hinit hr hsucc
      exact ⟨b, c, d⟩
  · intro htype
    rw [processRequest_forecast env s request htype] at hsucc ⊢
    cases hr : (handleForecast env s.countRequest request).result with
    | error m => simp [hr] at hsucc
    | ok r =>
      simp only [hr] at hsucc ⊢
      obtain ⟨_, b, c⟩ := handleForecast_success env _ request r hinit hr hsucc
      exact ⟨b, c⟩
  · intro htype
    rw [processRequest_search env s request htype] at hsucc ⊢
    cases hr : (handleCitySearch env s.countRequest request).result with
    | error m => simp [hr] at hsucc
    | ok r =>
      simp only [hr] at hsucc ⊢
      obtain ⟨_, b, c, d, e⟩ := handleCitySearch_success env _ request r hinit hr hsucc
      exact ⟨d, e, b, c⟩

/-- C19, amended. A response is marked successful by its handler when
`success = true` is returned also in the run in which the never-initialised
member holds `false`.  For every such request, and whatever the
never-initialised member holds, the response has `success = true` and: for
CurrentWeather, `forecast` and `city_suggestions` are empty and
`current_weather` is the unexpired cached record or the fetched record stamped
with city, country and coordinates; for GeoLocation, they are empty and
`current_weather` is the fetched record; for Forecast, `city_suggestions` is
empty, `forecast` is the projected daily sequence and `current_weather` is the
fetched record with city and country overwritten; for SearchCity,
`city_suggestions` is the non-empty search result, `forecast` is empty and
`current_weather` is left at its default. -/
theorem payload_per_variant (env : Env) (s : WeatherService) (request : WeatherRequest)
    (hmarked : (processRequest { env with uninit_success := false } s request).response.success
      = true) :
    (processRequest env s request).response.success = true ∧
    (request.type = CURRENT_WEATHER →
      (processRequest env s request).response.forecast = [] ∧
      (processRequest env s request).response.city_suggestions = [] ∧
      ((∃ e, s.cache_enabled_ = true ∧ s.cache_.find (currentCacheKey request) = some e ∧
          env.tGet < e.expiry ∧ (processRequest env s request).response.current_weather = e.data) ∨
        ∃ (lat lon : Double) (fetched : WeatherData),
          env.api.getCoordinates request.city_name request.country_code = .ok (lat, lon) ∧
          env.api.getCurrentWeather lat lon "auto"
            (if request.language = "" then s.language_ else request.language) = .ok fetched ∧
          (processRequest env s request).response.current_weather =
            { fetched with
              city := request.city_name, country := request.country_code
              latitude := lat, longitude := lon })) ∧
    (request.type = GEO_LOCATION →
      (processRequest env s request).response.forecast = [] ∧
      (processRequest env s request).response.city_suggestions = [] ∧
      env.api.getCurrentWeather request.latitude request.longitude "auto" s.language_ =
        .ok (processRequest env s request).response.current_weather) ∧
    (request.type = FORECAST →
      (processRequest env s request).response.city_suggestions = [] ∧
      ∃ (lat lon : Double) (fetched : WeatherData),
        env.api.getCoordinates request.city_name request.country_code = .ok (lat, lon) ∧
        env.api.getForecast lat lon (if request.days > 0 then request.days else 3) "auto"
          (if request.language = "" then s.language_ else request.language) = .ok fetched ∧
        (processRequest env s request).response.current_weather =
          { fetched with city := request.city_name, country := request.country_code } ∧
        (processRequest env s request).response.forecast =
          fetched.daily_forecast.map (fun day =>
            { env.default_data with
              temperature := day.temp_max
              weather_code := day.weather_code
              icon_name := getIconNameFromCode day.weather_code true
              condition := getConditionFromCode day.weather_code s.language_ })) ∧
    (request.type = SEARCH_CITY →
      (processRequest env s request).response.city_suggestions ≠ [] ∧
      env.api.searchCity request.city_name 10 =
        .ok (processRequest env s request).response.city_suggestions ∧
      (processRequest env s request).response.forecast = [] ∧
      (processRequest env s request).response.current_weather = env.default_data) := by
  have heq := processRequest_marked env s request hmarked
  have h := success_payloads_initialised { env with uninit_success := false } s request rfl hmarked
  rw [heq]
  exact ⟨hmarked, h⟩

/-- Three successes returned while the never-initialised member holds `true`:
a GeoLocation request at (49, 2) carries only the fetched record, a SearchCity
request for "Par" only the suggestions, and a Forecast request for
("Paris", "FR") carries the fetched record with city and country overwritten
and no suggestions. -/
theorem payload_per_variant_witness :
    parisEnv.uninit_success = true ∧
    ((processRequest parisEnv WeatherService.create geoRequest).response.success = true ∧
      (processRequest parisEnv WeatherService.create geoRequest).response.forecast = [] ∧
      (processRequest parisEnv WeatherService.create geoRequest).response.city_suggestions = [] ∧
      (processRequest parisEnv WeatherService.create geoRequest).response.current_weather
        = sunnyData) ∧
    ((processRequest parisEnv WeatherService.create searchRequest).response.success = true ∧
      (processRequest parisEnv WeatherService.create searchRequest).response.city_suggestions
        = [("Paris", "France")] ∧
      (processRequest parisEnv WeatherService.create searchRequest).response.forecast = [] ∧
      (processRequest parisEnv WeatherService.create searchRequest).response.current_weather
        = blankData) ∧
    ((processRequest parisEnv WeatherService.create fiveDayRequest).response.success = true ∧
      (processRequest parisEnv WeatherService.create fiveDayRequest).response.city_suggestions
        = [] ∧
      (processRequest parisEnv WeatherService.create fiveDayRequest).response.current_weather
        = { rainyData with city := "Paris", country := "FR" }) :=
  have hgeo := payload_per_variant parisEnv WeatherService.create geoRequest (by decide)
  have hsearch := payload_per_variant parisEnv WeatherService.create searchRequest (by decide)
  have hfc := payload_per_variant parisEnv WeatherService.create fiveDayRequest (by decide)
  ⟨rfl,
   ⟨hgeo.1, (hgeo.2.2.1 rfl).1, (hgeo.2.2.1 rfl).2.1,
     (Except.ok.inj (hgeo.2.2.1 rfl).2.2).symm⟩,
   ⟨hsearch.1,
     ((Except.ok.inj (hsearch.2.2.2.2 rfl).2.1).symm : _ = [("Paris", "France")]),
     (hsearch.2.2.2.2 rfl).2.2.1, (hsearch.2.2.2.2 rfl).2.2.2⟩,
   ⟨hfc.1, (hfc.2.2.2.1 rfl).1, by
     obtain ⟨lat, lon, fetched, _, hf, hcw, _⟩ := (hfc.2.2.2.1 rfl).2
     have hfetched : rainyData = fetched := Except.ok.inj hf
     subst hfetched
     exact hcw⟩⟩

theorem getCurrentWeather_of_parse_failure (http : HttpLayer) (default_data : WeatherData)
    (base : APIClient) (lat lon : Double) (timezone language : String)
    (hfail : http.parseCurrent
      (http.performRequest (http.buildCurrentWeatherUrl lat lon timezone language)) = none) :
    (http.client default_data base).getCurrentWeather lat lon timezone language =
      .ok default_data := by
  simp [HttpLayer.client, HttpLayer.getCurrentWeather, HttpLayer.parseCurrentWeatherJson, hfail]

/-- C20, the claim as stated fails: the HTTP request of the
current-weather fetch yields an empty body, which is not valid JSON (the
uninitialised member holds `false`).  A GeoLocation request at (49, 2) is
answered with `success = true`, an empty error message and the default
record, and `api_calls` is incremented.  A CurrentWeather request for
("Paris", "FR") is answered with `success = true` and the default record
stamped with the request, and that record is stored in the cache until
3001 + 300. -/
theorem failed_fetch_reported_as_success :
    (processRequest deadEnv WeatherService.create geoRequest).response =
      { success := true, error_message := "", current_weather := blankData
        forecast := [], city_suggestions := [] } ∧
    (processRequest deadEnv WeatherService.create geoRequest).service.stats_.api_calls = 1 ∧
    (processRequest deadEnv WeatherService.create parisRequest).response =
      { success := true, error_message := ""
        current_weather :=
          { blankData with city := "Paris", country := "FR", latitude := 49, longitude := 2 }
        forecast := [], city_suggestions := [] } ∧
    (processRequest deadEnv WeatherService.create parisRequest).service.cache_.find
        "current_Paris_FR" =
      some
        { data :=
            { blankData with city := "Paris", country := "FR", latitude := 49, longitude := 2 }
          timestamp := 3001
          expiry := 3301 } := by
  decide

/-- C20, amended. When the current-weather fetch of the API client fails at the
transport or parsing level (the body obtained for the request is not valid
JSON, an empty body included), the client returns the default-constructed
record.  A GeoLocation request with coordinates other than (0,0) is then
answered with `success = true`, an empty error message and that record, after
one fetch, and `api_calls` grows by 1.  A CurrentWeather request that is not
served from the cache and whose coordinates resolve to `(lat, lon)` other than
(0,0) is answered with `success = true` and that record stamped with the
request, `api_calls` grows by 1, and with caching enabled the stamped record is
stored under the request key, its expiry being the `int64_t` sum
`env.tPut + default TTL`, which is `env.tPut + default TTL` itself when the sum
fits in `int64_t`. -/
theorem failed_fetch_yields_default_record (http : HttpLayer) (base : APIClient) (env : Env)
    (s : WeatherService) (request : WeatherRequest)
    (hapi : env.api = http.client env.default_data base) :
    (request.type = GEO_LOCATION →
      ¬ (request.latitude = 0 ∧ request.longitude = 0) →
      http.parseCurrent
        (http.performRequest
          (http.buildCurrentWeatherUrl request.latitude request.longitude "auto" s.language_))
        = none →
      (processRequest env s request).response =
        { success := true, error_message := "", current_weather := env.default_data
          forecast := [], city_suggestions := [] } ∧
      (processRequest env s request).calls =
        [UpstreamCall.getCurrentWeather request.latitude request.longitude "auto"
          s.language_] ∧
      (processRequest env s request).service.stats_.api_calls = s.stats_.api_calls + 1) ∧
    (∀ lat lon : Double,
      request.type = CURRENT_WEATHER →
      (s.cache_enabled_ = true →
        (s.cache_.get (currentCacheKey request) env.tGet).1 = none) →
      env.api.getCoordinates request.city_name request.country_code = .ok (lat, lon) →
      ¬ (lat = 0 ∧ lon = 0) →
      http.parseCurrent
        (http.performRequest
          (http.buildCurrentWeatherUrl lat lon "auto"
            (if request.language = "" then s.language_ else request.language)))
        = none →
      (processRequest env s request).response =
        { success := true, error_message := ""
          current_weather :=
            { env.default_data with
              city := request.city_name, country := request.country_code
              latitude := lat, longitude := lon }
          forecast := [], city_suggestions := [] } ∧
      (processRequest env s request).service.stats_.api_calls = s.stats_.api_calls + 1 ∧
      (s.cache_enabled_ = true →
        (processRequest env s request).service.cache_.find (currentCacheKey request) =
          some
            { data :=
                { env.default_data with
                  city := request.city_name, country := request.country_code
                  latitude := lat, longitude := lon }
              timestamp := env.tPut
              expiry := wrap64 (env.tPut + s.cache_.default_ttl_) } ∧
        (-9223372036854775808 ≤ env.tPut + s.cache_.default_ttl_ →
          env.tPut + s.cache_.default_ttl_ < 9223372036854775808 →
          (processRequest env s request).service.cache_.find (currentCacheKey request) =
            some
              { data :=
                  { env.default_data with
                    city := request.city_name, country := request.country_code
                    latitude := lat, longitude := lon }
                timestamp := env.tPut
                expiry := env.tPut + s.cache_.default_ttl_ }))) := by
  constructor
  · intro htype hnz hfail
    have hfetch : env.api.getCurrentWeather request.latitude request.longitude "auto"
        s.language_ = .ok env.default_data := by
      rw [hapi]
      exact getCurrentWeather_of_parse_failure http env.default_data base _ _ _ _ hfail
    rw [processRequest_geo_found env s request env.default_data htype hnz hfetch]
    exact ⟨rfl, rfl, rfl⟩
  · intro lat lon htype hmiss hcoords hnz hfail
    have hfetch : env.api.getCurrentWeather lat lon "auto"
        (if request.language = "" then s.language_ else request.language)
        = .ok env.default_data := by
      rw [hapi]
      exact getCurrentWeather_of_parse_failure http env.default_data base _ _ _ _ hfail
    rw [processRequest_current_miss env s request lat lon env.default_data htype hmiss hcoords
      hnz hfetch]
    refine ⟨rfl, rfl, ?_⟩
    intro hen
    simp only [hen, if_true]
    rw [find_put_self, default_ttl_get]
    refine ⟨by simp, ?_⟩
    intro hlo hhi
    simp [wrap64_of_inRange _ hlo hhi]

/-- A GeoLocation request at (49, 2) over a transport on which every request
fails. -/
theorem failed_fetch_yields_default_record_witness :
    (processRequest deadEnv WeatherService.create geoRequest).response =
      { success := true, error_message := "", current_weather := deadEnv.default_data
        forecast := [], city_suggestions := [] } ∧
    (processRequest deadEnv WeatherService.create geoRequest).calls =
      [UpstreamCall.getCurrentWeather 49 2 "auto" "zh"] ∧
    (processRequest deadEnv WeatherService.create geoRequest).service.stats_.api_calls
      = WeatherService.create.stats_.api_calls + 1 :=
  (failed_fetch_yields_default_record deadHttp parisClient deadEnv WeatherService.create
    geoRequest rfl).1 rfl (by decide) rfl

/-! ## Theorems: exceptions -/

theorem find_get_subset (c : WeatherCache) (key k : String) (now : Int) (e : CacheEntry)
    (h : ((c.get key now).2).find k = some e) : c.find k = some e := by
  cases hfind : c.find key with
  | none =>
    rw [get_of_find_none c key now hfind] at h
    exact h
  | some entry =>
    by_cases hfresh : now < entry.expiry
    · rw [get_of_find_fresh c key now entry hfind hfresh] at h
      exact h
    · rw [get_of_find_expired c key now entry hfind hfresh] at h
      by_cases hk : k = key
      · subst hk
        simp [WeatherCache.find, AList.lookup_erase] at h
      · simpa [WeatherCache.find, AList.lookup_erase_ne hk] using h

theorem fetchCurrentWeather_error (env : Env) (s : WeatherService) (request : WeatherRequest)
    (m : String) (h : (fetchCurrentWeather env s request).result = .error m) :
    (fetchCurrentWeather env s request).service = s := by
  unfold fetchCurrentWeather at h ⊢
  cases hc : env.api.getCoordinates request.city_name request.country_code with
  | error m1 => rfl
  | ok coords =>
    simp only [hc] at h
    by_cases hz : coords.1 = 0 ∧ coords.2 = 0
    · simp only [if_pos hz]
    · simp only [if_neg hz] at h ⊢
      cases hf : env.api.getCurrentWeather coords.1 coords.2 "auto"
          (effectiveLanguage s request) with
      | error m2 => rfl
      | ok fetched => simp [hf] at h

theorem handleCurrentWeather_error (env : Env) (s : WeatherService) (request : WeatherRequest)
    (m : String) (h : (handleCurrentWeather env s request).result = .error m) :
    (handleCurrentWeather env s request).service.stats_ = s.stats_ ∧
    (∀ k e, (handleCurrentWeather env s request).service.cache_.find k = some e →
      s.cache_.find k = some e) := by
  unfold handleCurrentWeather at h ⊢
  by_cases hen : s.cache_enabled_ = true
  · rw [if_pos hen] at h ⊢
    rcases hg : s.cache_.get (currentCacheKey request) env.tGet with ⟨hit, cache⟩
    rw [hg] at h
    cases hit with
    | some cached_data => simp at h
    | none =>
      simp only []
      rw [fetchCurrentWeather_error env { s with cache_ := cache } request m h]
      refine ⟨rfl, ?_⟩
      intro k e hk
      have hcache : cache = (s.cache_.get (currentCacheKey request) env.tGet).2 := by rw [hg]
      simp only [] at hk
      rw [hcache] at hk
      exact find_get_subset s.cache_ _ k env.tGet e hk
  · rw [if_neg hen] at h ⊢
    rw [fetchCurrentWeather_error env s request m h]
    exact ⟨rfl, fun _ _ hk => hk⟩

theorem handleForecast_error (env : Env) (s : WeatherService) (request : WeatherRequest)
    (m : String) (h : (handleForecast env s request).result = .error m) :
    (handleForecast env s request).service = s := by
  unfold handleForecast at h ⊢
  cases hc : env.api.getCoordinates request.city_name request.country_code with
  | error m1 => rfl
  | ok coords =>
    simp only [hc] at h
    by_cases hz : coords.1 = 0 ∧ coords.2 = 0
    · simp only [if_pos hz]
    · simp only [if_neg hz] at h ⊢
      cases hf : env.api.getForecast coords.1 coords.2
          (if request.days > 0 then request.days else 3) "auto"
          (effectiveLanguage s request) with
      | error m2 => rfl
      | ok fetched => simp [hf] at h

theorem handleGeoLocation_error (env : Env) (s : WeatherService) (request : WeatherRequest)
    (m : String) (h : (handleGeoLocation env s request).result = .error m) :
    (handleGeoLocation env s request).service = s := by
  unfold handleGeoLocation at h ⊢
  by_cases hz : request.latitude = 0 ∧ request.longitude = 0
  · simp only [if_pos hz]
  · simp only [if_neg hz] at h ⊢
    cases hf : env.api.getCurrentWeather request.latitude request.longitude "auto"
        s.language_ with
    | error m2 => rfl
    | ok fetched => simp [hf] at h

theorem dispatch_error (env : Env) (s : WeatherService) (request : WeatherRequest)
    (response : WeatherResponse) (m : String)
    (h : (dispatch env s request response).result = .error m) :
    (dispatch env s request response).service.stats_ = s.stats_ ∧
    (∀ k e, (dispatch env s request response).service.cache_.find k = some e →
      s.cache_.find k = some e) := by
  unfold dispatch at h ⊢
  split at h
  · rename_i h0
    rw [if_pos h0]
    exact handleCurrentWeather_error env s request m h
  · rename_i h0
    rw [if_neg h0]
    split at h
    · rename_i h1
      rw [if_pos h1, handleForecast_error env s request m h]
      exact ⟨rfl, fun _ _ hk => hk⟩
    · rename_i h1
      rw [if_neg h1]
      split at h
      · rename_i h2
        rw [if_pos h2, handleCitySearch_service]
        exact ⟨rfl, fun _ _ hk => hk⟩
      · rename_i h2
        rw [if_neg h2]
        split at h
        · rename_i h3
          rw [if_pos h3, handleGeoLocation_error env s request m h]
          exact ⟨rfl, fun _ _ hk => hk⟩
        · simp at h

/-- When the `try` block of `processRequest` is left by an exception with
message `m` thrown by the API client, the response has `success = false`, the
error message "处理请求时出错: " followed by `m`, and no payload; `total_requests`
is incremented and the measured duration is added to `total_response_time`;
`api_calls` and `cache_hits` are unchanged; and every cache entry present
afterwards was present, unchanged, before. -/
theorem processRequest_client_error (env : Env) (s : WeatherService) (request : WeatherRequest)
    (m : String)
    (hthrow : (dispatch env s.countRequest request
      ({ env.freshResponse with success := false } : WeatherResponse)).result = .error m) :
    (processRequest env s request).response =
      { success := false, error_message := "处理请求时出错: " ++ m
        current_weather := env.default_data, forecast := [], city_suggestions := [] } ∧
    (processRequest env s request).service.stats_.total_requests =
      s.stats_.total_requests + 1 ∧
    (processRequest env s request).service.stats_.total_response_time =
      s.stats_.total_response_time + env.elapsedMs ∧
    (processRequest env s request).service.stats_.api_calls = s.stats_.api_calls ∧
    (processRequest env s request).service.stats_.cache_hits = s.stats_.cache_hits ∧
    (∀ k e, (processRequest env s request).service.cache_.find k = some e →
      s.cache_.find k = some e) := by
  obtain ⟨hstats, hcache⟩ := dispatch_error env s.countRequest request _ m hthrow
  simp only [processRequest, hthrow, WeatherService.addResponseTime, hstats]
  exact ⟨rfl, rfl, rfl, rfl, rfl, hcache⟩

theorem throwAt_noFaults (point : ThrowPoint) (s : WeatherService) (calls : List UpstreamCall)
    (rest : Outcome) : throwAt noFaults point s calls rest = rest := rfl

theorem fetchCurrentWeatherThrowing_noFaults (env : Env) (s : WeatherService)
    (request : WeatherRequest) :
    fetchCurrentWeatherThrowing noFaults env s request = fetchCurrentWeather env s request := by
  unfold fetchCurrentWeatherThrowing fetchCurrentWeather
  simp only [throwAt_noFaults]
  cases env.api.getCoordinates request.city_name request.country_code with
  | error m => rfl
  | ok coords =>
    by_cases hz : coords.1 = 0 ∧ coords.2 = 0
    · simp only [if_pos hz]
    · simp only [if_neg hz]
      cases env.api.getCurrentWeather coords.1 coords.2 "auto" (effectiveLanguage s request) with
      | error m => rfl
      | ok fetched =>
        by_cases hen : s.cache_enabled_ = true
        · simp [hen]
        · simp [hen]

theorem handleCurrentWeatherThrowing_noFaults (env : Env) (s : WeatherService)
    (request : WeatherRequest) :
    handleCurrentWeatherThrowing noFaults env s request = handleCurrentWeather env s request := by
  unfold handleCurrentWeatherThrowing handleCurrentWeather
  simp only [throwAt_noFaults, fetchCurrentWeatherThrowing_noFaults]

theorem handleForecastThrowing_noFaults (env : Env) (s : WeatherService)
    (request : WeatherRequest) :
    handleForecastThrowing noFaults env s request = handleForecast env s request := by
  unfold handleForecastThrowing handleForecast
  simp only [throwAt_noFaults]

theorem handleCitySearchThrowing_noFaults (env : Env) (s : WeatherService)
    (request : WeatherRequest) :
    handleCitySearchThrowing noFaults env s request = handleCitySearch env s request := by
  unfold handleCitySearchThrowing handleCitySearch
  simp only [throwAt_noFaults]
  by_cases hq : request.city_name = ""
  · simp only [if_pos hq]
  · simp only [if_neg hq]
    cases env.api.searchCity request.city_name 10 with
    | error m => rfl
    | ok results =>
      cases results with
      | nil => rfl
      | cons a rest => rfl

theorem handleGeoLocationThrowing_noFaults (env : Env) (s : WeatherService)
    (request : WeatherRequest) :
    handleGeoLocationThrowing noFaults env s request = handleGeoLocation env s request := by
  unfold handleGeoLocationThrowing handleGeoLocation
  simp only [throwAt_noFaults]

theorem dispatchThrowing_noFaults (env : Env) (s : WeatherService) (request : WeatherRequest)
    (response : WeatherResponse) :
    dispatchThrowing noFaults env s request response = dispatch env s request response := by
  unfold dispatchThrowing dispatch
  simp only [throwAt_noFaults, handleCurrentWeatherThrowing_noFaults,
    handleForecastThrowing_noFaults, handleCitySearchThrowing_noFaults,
    handleGeoLocationThrowing_noFaults]

/-- When no statement of the service raises, `processRequestThrowing` returns
what `processRequest` returns. -/
theorem processRequestThrowing_noFaults (env : Env) (s : WeatherService)
    (request : WeatherRequest) :
    processRequestThrowing noFaults env s request =
      { result := .ok (processRequest env s request).response
        service := (processRequest env s request).service
        calls := (processRequest env s request).calls } := by
  unfold processRequestThrowing processRequest
  simp only [throwAt_noFaults, dispatchThrowing_noFaults]
  cases (dispatch env s.countRequest request
    ({ env.freshResponse with success := false } : WeatherResponse)).result with
  | error m => rfl
  | ok r => rfl

/-- C22. Icon name is never empty: for every integer code and both values of
`is_day`, `getIconNameFromCode` returns one of the ten identifiers, and the
result is not the empty string. -/
theorem icon_name_never_empty (code : Int) (is_day : Bool) :
    getIconNameFromCode code is_day ∈
      ["sunny", "clear-night", "partly-cloudy-day", "partly-cloudy-night", "fog", "drizzle",
       "rain", "snow", "thunderstorm", "unknown"] ∧
    getIconNameFromCode code is_day ≠ "" := by
  unfold getIconNameFromCode
  cases is_day <;> (repeat' split) <;> decide

/-- C23. Day/night only affects clear and partly-cloudy: the icon names for day
and for night differ exactly when `0 <= code <= 3`. -/
theorem day_night_only_clear_and_partly_cloudy (code : Int) :
    (getIconNameFromCode code true ≠ getIconNameFromCode code false ↔ 0 ≤ code ∧ code ≤ 3) ∧
    (¬ (0 ≤ code ∧ code ≤ 3) → getIconNameFromCode code true = getIconNameFromCode code false) := by
  have key : getIconNameFromCode code true ≠ getIconNameFromCode code false ↔
      0 ≤ code ∧ code ≤ 3 := by
    unfold getIconNameFromCode
    by_cases h0 : code = 0
    · simp [h0]
    · by_cases h13 : code ≥ 1 ∧ code ≤ 3
      · simp only [if_neg h0, if_pos h13, if_true]
        constructor
        · intro _
          omega
        · intro _
          decide
      · simp only [if_neg h0, if_neg h13]
        constructor
        · intro h
          exact absurd rfl h
        · intro h
          omega
  refine ⟨key, ?_⟩
  intro h
  by_contra hne
  exact h (key.mp hne)
theorem lookup_eq_none_of_not_mem_keys (code : Int) :
    ∀ (table : List (Int × String)), code ∉ table.map Prod.fst → table.lookup code = none
  | [], _ => rfl
  | (k, v) :: rest, h => by
    have hk : code ≠ k := fun heq => h (by simp [heq])
    have hrest : code ∉ rest.map Prod.fst := fun hmem => h (by simp [List.mem_of_mem_tail, hmem])
    have ih := lookup_eq_none_of_not_mem_keys code rest hrest
    have hb : (code == k) = false := by simpa using hk
    rw [List.lookup, hb]
    exact ih

/-- C24. Condition string and its unknown sentinel: for a code outside the 28
codes of the table `getConditionFromCode` returns "未知" when the language is
"zh" or "zh-CN" and "Unknown" for every other language; for a code of the
table it returns a non-empty phrase that is neither sentinel; and the keys of
the Chinese and of the English table are exactly those 28 codes. -/
theorem condition_table (code : Int) (language : String) :
    (code ∉ ([0, 1, 2, 3, 45, 48, 51, 53, 55, 56, 57, 61, 63, 65, 66, 67, 71, 73, 75, 77, 80, 81,
        82, 85, 86, 95, 96, 99] : List Int) →
      (language = "zh" ∨ language = "zh-CN" → getConditionFromCode code language = "未知") ∧
      (¬ (language = "zh" ∨ language = "zh-CN") →
        getConditionFromCode code language = "Unknown")) ∧
    (code ∈ ([0, 1, 2, 3, 45, 48, 51, 53, 55, 56, 57, 61, 63, 65, 66, 67, 71, 73, 75, 77, 80, 81,
        82, 85, 86, 95, 96, 99] : List Int) →
      getConditionFromCode code language ≠ "" ∧
      getConditionFromCode code language ≠ "未知" ∧
      getConditionFromCode code language ≠ "Unknown") ∧
    zh_cn.map Prod.fst =
      [0, 1, 2, 3, 45, 48, 51, 53, 55, 56, 57, 61, 63, 65, 66, 67, 71, 73, 75, 77, 80, 81,
        82, 85, 86, 95, 96, 99] ∧
    en.map Prod.fst =
      [0, 1, 2, 3, 45, 48, 51, 53, 55, 56, 57, 61, 63, 65, 66, 67, 71, 73, 75, 77, 80, 81,
        82, 85, 86, 95, 96, 99] := by
  have hzhKeys : zh_cn.map Prod.fst =
      [0, 1, 2, 3, 45, 48, 51, 53, 55, 56, 57, 61, 63, 65, 66, 67, 71, 73, 75, 77, 80, 81,
        82, 85, 86, 95, 96, 99] := by decide
  have henKeys : en.map Prod.fst =
      [0, 1, 2, 3, 45, 48, 51, 53, 55, 56, 57, 61, 63, 65, 66, 67, 71, 73, 75, 77, 80, 81,
        82, 85, 86, 95, 96, 99] := by decide
  have hzhIn : ∀ c ∈ ([0, 1, 2, 3, 45, 48, 51, 53, 55, 56, 57, 61, 63, 65, 66, 67, 71, 73, 75,
      77, 80, 81, 82, 85, 86, 95, 96, 99] : List Int),
      (match zh_cn.lookup c with | some text => text | none => "未知") ≠ "" ∧
      (match zh_cn.lookup c with | some text => text | none => "未知") ≠ "未知" ∧
      (match zh_cn.lookup c with | some text => text | none => "未知") ≠ "Unknown" := by
    decide
  have henIn : ∀ c ∈ ([0, 1, 2, 3, 45, 48, 51, 53, 55, 56, 57, 61, 63, 65, 66, 67, 71, 73, 75,
      77, 80, 81, 82, 85, 86, 95, 96, 99] : List Int),
      (match en.lookup c with | some text => text | none => "Unknown") ≠ "" ∧
      (match en.lookup c with | some text => text | none => "Unknown") ≠ "未知" ∧
      (match en.lookup c with | some text => text | none => "Unknown") ≠ "Unknown" := by
    decide
  refine ⟨?_, ?_, hzhKeys, henKeys⟩
  · intro hout
    constructor
    · intro hl
      unfold getConditionFromCode
      rw [if_pos hl, lookup_eq_none_of_not_mem_keys code zh_cn (by rw [hzhKeys]; exact hout)]
    · intro hl
      unfold getConditionFromCode
      rw [if_neg hl, lookup_eq_none_of_not_mem_keys code en (by rw [henKeys]; exact hout)]
  · intro hin
    unfold getConditionFromCode
    by_cases hl : language = "zh" ∨ language = "zh-CN"
    · rw [if_pos hl]
      exact hzhIn code hin
    · rw [if_neg hl]
      exact henIn code hin

/-! ## Theorems: operator commands and cache keys -/

theorem clearCommand_effect (s : WeatherService) :
    (clearCommand s).2 = { s with cache_enabled_ := true } ∧
    (clearCommand s).2.cache_ = s.cache_ := by
  exact ⟨rfl, rfl⟩

/-- C25. The `clear` command, evaluated on the code: on a service that has just
cached the record for ("Paris", "FR") (stored at clock 1001, TTL 300) the
command answers "缓存已清空" but the entry is still in the cache, and the same
request at clock 1100 is served from the cache: no client operation is
invoked and `cache_hits` becomes 1. -/
theorem clear_command_keeps_entries :
    (clearCommand (processRequest parisEnv WeatherService.create parisRequest).service).1
      = "缓存已清空" ∧
    ((clearCommand (processRequest parisEnv WeatherService.create parisRequest).service).2.cache_.find
        "current_Paris_FR").isSome = true ∧
    (processRequest parisEnvLater
      (clearCommand (processRequest parisEnv WeatherService.create parisRequest).service).2
      parisRequest).calls = [] ∧
    (processRequest parisEnvLater
      (clearCommand (processRequest parisEnv WeatherService.create parisRequest).service).2
      parisRequest).service.stats_.cache_hits = 1 ∧
    (processRequest parisEnvLater
      (clearCommand (processRequest parisEnv WeatherService.create parisRequest).service).2
      parisRequest).response.success = true := by
  decide

theorem separator_split_left (x : Char) :
    ∀ (l1 l2 r1 r2 : List Char), x ∉ l1 → x ∉ l2 → l1 ++ x :: r1 = l2 ++ x :: r2 →
      l1 = l2 ∧ r1 = r2
  | [], [], r1, r2, _, _, h => by
    simp only [List.nil_append, List.cons.injEq, true_and] at h
    exact ⟨rfl, h⟩
  | [], b :: l2, r1, r2, _, h2, h => by
    simp only [List.nil_append, List.cons_append, List.cons.injEq] at h
    exact absurd (by simp [h.1]) h2
  | a :: l1, [], r1, r2, h1, _, h => by
    simp only [List.nil_append, List.cons_append, List.cons.injEq] at h
    exact absurd (by simp [h.1]) h1
  | a :: l1, b :: l2, r1, r2, h1, h2, h => by
    simp only [List.cons_append, List.cons.injEq] at h
    have ih := separator_split_left x l1 l2 r1 r2
      (fun hm => h1 (List.mem_cons_of_mem a hm)) (fun hm => h2 (List.mem_cons_of_mem b hm)) h.2
    exact ⟨by rw [h.1, ih.1], ih.2⟩

theorem separator_split_right (x : Char) (l1 l2 r1 r2 : List Char) (h1 : x ∉ r1) (h2 : x ∉ r2)
    (h : l1 ++ x :: r1 = l2 ++ x :: r2) : l1 = l2 ∧ r1 = r2 := by
  have hrev : r1.reverse ++ x :: l1.reverse = r2.reverse ++ x :: l2.reverse := by
    have := congrArg List.reverse h
    simpa using this
  have key := separator_split_left x r1.reverse r2.reverse l1.reverse l2.reverse
    (by simpa using h1) (by simpa using h2) hrev
  exact ⟨List.reverse_injective key.2, List.reverse_injective key.1⟩

theorem currentCacheKey_data (request : WeatherRequest) :
    (currentCacheKey request).data =
      "current_".data ++ (request.city_name.data ++ '_' :: request.country_code.data) := by
  simp [currentCacheKey, String.data_append]
/-- C27, the claim as stated fails: the pairs ("a_b", "c") and ("a", "b_c") are
different and derive the same key "current_a_b_c"; after a CurrentWeather
request for the first pair has been served and cached, a request for the
second pair within the TTL is served from the cache, without any client
operation, with the record stamped for the city "a_b". -/
theorem cache_key_collision :
    (underscoreCityRequest.city_name, underscoreCityRequest.country_code) ≠
      (underscoreCountryRequest.city_name, underscoreCountryRequest.country_code) ∧
    currentCacheKey underscoreCityRequest = currentCacheKey underscoreCountryRequest ∧
    (processRequest parisEnvLater
      (processRequest parisEnv WeatherService.create underscoreCityRequest).service
      underscoreCountryRequest).calls = [] ∧
    (processRequest parisEnvLater
      (processRequest parisEnv WeatherService.create underscoreCityRequest).service
      underscoreCountryRequest).response.success = true ∧
    (processRequest parisEnvLater
      (processRequest parisEnv WeatherService.create underscoreCityRequest).service
      underscoreCountryRequest).response.current_weather.city = "a_b" := by
  decide

/-- C27, amended. The CurrentWeather cache key is a function of the pair
(city_name, country_code), and it is injective on pairs whose country codes
contain no underscore, and on pairs whose city names contain no underscore:
two such requests with the same key have the same pair.  For two such requests
with different pairs, storing a record under the key of the first does not
change the entry found under the key of the second. -/
theorem cache_key_injective_without_underscore (r1 r2 : WeatherRequest)
    (hsafe : ('_' ∉ r1.country_code.data ∧ '_' ∉ r2.country_code.data) ∨
      ('_' ∉ r1.city_name.data ∧ '_' ∉ r2.city_name.data)) :
    (r1.city_name = r2.city_name ∧ r1.country_code = r2.country_code →
      currentCacheKey r1 = currentCacheKey r2) ∧
    (currentCacheKey r1 = currentCacheKey r2 →
      r1.city_name = r2.city_name ∧ r1.country_code = r2.country_code) ∧
    (¬ (r1.city_name = r2.city_name ∧ r1.country_code = r2.country_code) →
      ∀ (c : WeatherCache) (data : WeatherData) (ttl now : Int),
        (c.put (currentCacheKey r1) data ttl now).find (currentCacheKey r2) =
          c.find (currentCacheKey r2)) := by
  have hinj : currentCacheKey r1 = currentCacheKey r2 →
      r1.city_name = r2.city_name ∧ r1.country_code = r2.country_code := by
    intro hkey
    have hdata := congrArg String.data hkey
    rw [currentCacheKey_data, currentCacheKey_data] at hdata
    have hrest := List.append_cancel_left hdata
    have hsplit : r1.city_name.data = r2.city_name.data ∧
        r1.country_code.data = r2.country_code.data := by
      rcases hsafe with ⟨h1, h2⟩ | ⟨h1, h2⟩
      · exact separator_split_right '_' _ _ _ _ h1 h2 hrest
      · exact separator_split_left '_' _ _ _ _ h1 h2 hrest
    exact ⟨String.ext hsplit.1, String.ext hsplit.2⟩
  refine ⟨?_, hinj, ?_⟩
  · rintro ⟨h1, h2⟩
    simp [currentCacheKey, h1, h2]
  · intro hne c data ttl now
    exact find_put_ne c data ttl now (fun hkey => hne (hinj hkey.symm))

/-- The requests for ("Paris", "FR") and ("Atlantis", ""): no underscore in the
country codes, different pairs, so the record stored for Paris is not found
under the key of Atlantis. -/
theorem cache_key_injective_without_underscore_witness :
    ((WeatherCache.create 300).put (currentCacheKey parisRequest) sunnyData 0 5).find
        (currentCacheKey atlantisRequest) =
      (WeatherCache.create 300).find (currentCacheKey atlantisRequest) :=
  (cache_key_injective_without_underscore parisRequest atlantisRequest
    (Or.inl (by decide))).2.2 (by decide) (WeatherCache.create 300) sunnyData 0 5

/-! ## Theorems: caching disabled, forecast language -/

theorem fetchCurrentWeather_disabled_cache (env : Env) (s : WeatherService)
    (request : WeatherRequest) (hdis : s.cache_enabled_ = false) :
    (fetchCurrentWeather env s request).service.cache_ = s.cache_ ∧
    (fetchCurrentWeather env s request).service.stats_.cache_hits = s.stats_.cache_hits := by
  unfold fetchCurrentWeather
  cases env.api.getCoordinates request.city_name request.country_code with
  | error m => exact ⟨rfl, rfl⟩
  | ok coords =>
    by_cases hz : coords.1 = 0 ∧ coords.2 = 0
    · simp [hz]
    · simp only [if_neg hz]
      cases env.api.getCurrentWeather coords.1 coords.2 "auto" (effectiveLanguage s request) with
      | error m => exact ⟨rfl, rfl⟩
      | ok fetched => simp [hdis, WeatherService.countApiCall]

theorem fetchCurrentWeather_fetch_invoked (env : Env) (s : WeatherService)
    (request : WeatherRequest) (lat lon : Double)
    (hcoords : env.api.getCoordinates request.city_name request.country_code = .ok (lat, lon))
    (hnz : ¬ (lat = 0 ∧ lon = 0)) :
    (fetchCurrentWeather env s request).calls =
      [UpstreamCall.getCoordinates request.city_name request.country_code,
       UpstreamCall.getCurrentWeather lat lon "auto" (effectiveLanguage s request)] := by
  unfold fetchCurrentWeather
  simp only [hcoords, if_neg hnz]
  cases env.api.getCurrentWeather lat lon "auto" (effectiveLanguage s request) <;> rfl

/-- C29. Caching disabled: while `cache_enabled_` is false, a CurrentWeather
request leaves the cache exactly as it was (expired entries included) and
`cache_hits` unchanged, whatever its outcome; when its coordinates resolve to
`(lat, lon)` other than (0,0) the client is invoked with the coordinate
resolution followed by the weather fetch at `(lat, lon)`, also when an
unexpired entry for the key is present, and when that fetch returns a record
the response carries it, stamped, and `api_calls` grows by exactly 1. -/
theorem caching_disabled (env : Env) (s : WeatherService) (request : WeatherRequest)
    (htype : request.type = CURRENT_WEATHER) (hdis : s.cache_enabled_ = false) :
    (processRequest env s request).service.cache_ = s.cache_ ∧
    (processRequest env s request).service.stats_.cache_hits = s.stats_.cache_hits ∧
    (processRequest env s request).service.cache_enabled_ = false ∧
    (∀ lat lon : Double,
      env.api.getCoordinates request.city_name request.country_code = .ok (lat, lon) →
      ¬ (lat = 0 ∧ lon = 0) →
      (processRequest env s request).calls =
        [UpstreamCall.getCoordinates request.city_name request.country_code,
         UpstreamCall.getCurrentWeather lat lon "auto"
           (if request.language = "" then s.language_ else request.language)] ∧
      ∀ fetched : WeatherData,
        env.api.getCurrentWeather lat lon "auto"
          (if request.language = "" then s.language_ else request.language) = .ok fetched →
        (processRequest env s request).response.success = true ∧
        (processRequest env s request).response.current_weather =
          { fetched with
            city := request.city_name, country := request.country_code
            latitude := lat, longitude := lon } ∧
        (processRequest env s request).service.stats_.api_calls = s.stats_.api_calls + 1) := by
  have hdis0 : s.countRequest.cache_enabled_ = false := hdis
  have hframe := fetchCurrentWeather_disabled_cache env s.countRequest request hdis0
  refine ⟨?_, ?_, ?_, ?_⟩
  · rw [processRequest_current env s request htype,
      handleCurrentWeather_disabled env s.countRequest request hdis0]
    exact hframe.1
  · rw [processRequest_current env s request htype,
      handleCurrentWeather_disabled env s.countRequest request hdis0]
    exact hframe.2
  · rw [processRequest_current env s request htype,
      handleCurrentWeather_disabled env s.countRequest request hdis0]
    unfold fetchCurrentWeather
    cases env.api.getCoordinates request.city_name request.country_code with
    | error m => exact hdis
    | ok coords =>
      by_cases hz : coords.1 = 0 ∧ coords.2 = 0
      · simp only [if_pos hz]
        exact hdis
      · simp only [if_neg hz]
        cases env.api.getCurrentWeather coords.1 coords.2 "auto"
            (effectiveLanguage s.countRequest request) with
        | error m => exact hdis
        | ok fetched =>
          simp only [hdis0]
          exact hdis
  · intro lat lon hcoords hnz
    constructor
    · rw [processRequest_current env s request htype,
        handleCurrentWeather_disabled env s.countRequest request hdis0]
      exact fetchCurrentWeather_fetch_invoked env s.countRequest request lat lon hcoords hnz
    · intro fetched hfetch
      rw [processRequest_current_miss env s request lat lon fetched htype
        (fun hen => by rw [hdis] at hen; cases hen) hcoords hnz hfetch]
      exact ⟨rfl, rfl, rfl⟩

/-- A service that has cached the record for ("Paris", "FR") until clock 1301
and then had caching disabled: the same request at clock 1100 goes to the
client and leaves the cache as it was. -/
theorem caching_disabled_witness :
    (processRequest parisEnvLater
        ((processRequest parisEnv WeatherService.create parisRequest).service.setCacheEnabled
          false) parisRequest).service.cache_ =
      ((processRequest parisEnv WeatherService.create parisRequest).service.setCacheEnabled
        false).cache_ ∧
    (processRequest parisEnvLater
        ((processRequest parisEnv WeatherService.create parisRequest).service.setCacheEnabled
          false) parisRequest).service.stats_.cache_hits =
      ((processRequest parisEnv WeatherService.create parisRequest).service.setCacheEnabled
        false).stats_.cache_hits ∧
    (processRequest parisEnvLater
        ((processRequest parisEnv WeatherService.create parisRequest).service.setCacheEnabled
          false) parisRequest).calls =
      [UpstreamCall.getCoordinates "Paris" "FR",
       UpstreamCall.getCurrentWeather 49 2 "auto" "zh"] :=
  have h := caching_disabled parisEnvLater
    ((processRequest parisEnv WeatherService.create parisRequest).service.setCacheEnabled false)
    parisRequest rfl rfl
  ⟨h.1, h.2.1, (h.2.2.2 49 2 rfl (by decide)).1⟩

/-- C30. Forecast language, evaluated on the code: a five-day Forecast request
for ("Paris", "FR") with the language override "en" on a fresh service (service
language "zh").  The forecast fetch is invoked with "en", the effective
language of the request, but the condition strings of the two forecast days
are the Chinese ones, derived with the service language, not "Slight rain" and
"Overcast". -/
theorem forecast_conditions_ignore_request_language :
    (processRequest forecastEnv WeatherService.create englishForecastRequest).calls =
      [UpstreamCall.getCoordinates "Paris" "FR",
       UpstreamCall.getForecast 49 2 5 "auto" "en"] ∧
    (processRequest forecastEnv WeatherService.create englishForecastRequest).response.success
      = true ∧
    (processRequest forecastEnv WeatherService.create englishForecastRequest).response.forecast.map
      (fun day => day.condition) = ["小雨", "阴天"] ∧
    (processRequest forecastEnv WeatherService.create englishForecastRequest).response.forecast.map
      (fun day => getConditionFromCode day.weather_code "en") = ["Slight rain", "Overcast"] := by
  decide

/-! ## Theorems: hit and upstream accounting -/

theorem fetchCurrentWeather_classify (env : Env) (s : WeatherService)
    (request : WeatherRequest) (hinit : env.uninit_success = false) :
    ((fetchCurrentWeather env s request).service.stats_ =
        { s.stats_ with api_calls := s.stats_.api_calls + 1 } ∧
      ∃ r, (fetchCurrentWeather env s request).result = .ok r ∧ r.success = true) ∨
    ((fetchCurrentWeather env s request).service.stats_ = s.stats_ ∧
      ∀ r, (fetchCurrentWeather env s request).result = .ok r → r.success = false) := by
  cases hc : env.api.getCoordinates request.city_name request.country_code with
  | error m =>
    right
    unfold fetchCurrentWeather
    simp [hc]
  | ok coords =>
    obtain ⟨lat, lon⟩ := coords
    by_cases hz : lat = 0 ∧ lon = 0
    · right
      obtain ⟨h1, h2⟩ := hz
      subst h1 h2
      rw [fetchCurrentWeather_notFound env s request hc]
      simp [Env.freshResponse, hinit]
    · cases hf : env.api.getCurrentWeather lat lon "auto" (effectiveLanguage s request) with
      | error m =>
        right
        unfold fetchCurrentWeather
        simp [hc, hz, hf]
      | ok fetched =>
        left
        rw [fetchCurrentWeather_found env s request lat lon fetched hc hz hf]
        refine ⟨?_, _, rfl, rfl⟩
        by_cases hen : s.cache_enabled_ = true
        · simp [hen, WeatherService.countApiCall]
        · simp [hen, WeatherService.countApiCall]

theorem handleCurrentWeather_classify (env : Env) (s : WeatherService)
    (request : WeatherRequest) (hinit : env.uninit_success = false) :
    ((handleCurrentWeather env s request).service.stats_ =
        { s.stats_ with cache_hits := s.stats_.cache_hits + 1 } ∧
      (handleCurrentWeather env s request).calls = [] ∧
      ∃ r, (handleCurrentWeather env s request).result = .ok r ∧ r.success = true) ∨
    ((handleCurrentWeather env s request).service.stats_ =
        { s.stats_ with api_calls := s.stats_.api_calls + 1 } ∧
      ∃ r, (handleCurrentWeather env s request).result = .ok r ∧ r.success = true) ∨
    ((handleCurrentWeather env s request).service.stats_ = s.stats_ ∧
      ∀ r, (handleCurrentWeather env s request).result = .ok r → r.success = false) := by
  unfold handleCurrentWeather
  by_cases hen : s.cache_enabled_ = true
  · rw [if_pos hen]
    rcases s.cache_.get (currentCacheKey request) env.tGet with ⟨hit, cache⟩
    cases hit with
    | some cached_data =>
      left
      exact ⟨rfl, rfl, _, rfl, rfl⟩
    | none =>
      right
      exact fetchCurrentWeather_classify env { s with cache_ := cache } request hinit
  · rw [if_neg hen]
    right
    exact fetchCurrentWeather_classify env s request hinit

theorem handleForecast_classify (env : Env) (s : WeatherService) (request : WeatherRequest)
    (hinit : env.uninit_success = false) :
    ((handleForecast env s request).service.stats_ =
        { s.stats_ with api_calls := s.stats_.api_calls + 1 } ∧
      ∃ r, (handleForecast env s request).result = .ok r ∧ r.success = true) ∨
    ((handleForecast env s request).service.stats_ = s.stats_ ∧
      ∀ r, (handleForecast env s request).result = .ok r → r.success = false) := by
  cases hc : env.api.getCoordinates request.city_name request.country_code with
  | error m =>
    right
    unfold handleForecast
    simp [hc]
  | ok coords =>
    obtain ⟨lat, lon⟩ := coords
    by_cases hz : lat = 0 ∧ lon = 0
    · right
      obtain ⟨h1, h2⟩ := hz
      subst h1 h2
      rw [handleForecast_notFound env s request hc]
      simp [Env.freshResponse, hinit]
    · cases hf : env.api.getForecast lat lon (if request.days > 0 then request.days else 3)
          "auto" (effectiveLanguage s request) with
      | error m =>
        right
        unfold handleForecast
        simp [hc, hz, hf]
      | ok fetched =>
        left
        rw [handleForecast_found env s request lat lon fetched hc hz hf]
        exact ⟨rfl, _, rfl, rfl⟩

theorem handleGeoLocation_classify (env : Env) (s : WeatherService) (request : WeatherRequest)
    (hinit : env.uninit_success = false) :
    ((handleGeoLocation env s request).service.stats_ =
        { s.stats_ with api_calls := s.stats_.api_calls + 1 } ∧
      ∃ r, (handleGeoLocation env s request).result = .ok r ∧ r.success = true) ∨
    ((handleGeoLocation env s request).service.stats_ = s.stats_ ∧
      ∀ r, (handleGeoLocation env s request).result = .ok r → r.success = false) := by
  by_cases hz : request.latitude = 0 ∧ request.longitude = 0
  · right
    rw [handleGeoLocation_origin env s request hz]
    simp [Env.freshResponse, hinit]
  · cases hf : env.api.getCurrentWeather request.latitude request.longitude "auto"
        s.language_ with
    | error m =>
      right
      unfold handleGeoLocation
      simp [hz, hf]
    | ok fetched =>
      left
      rw [handleGeoLocation_found env s request fetched hz hf]
      exact ⟨rfl, _, rfl, rfl⟩
theorem handleCurrentWeather_hits (env : Env) (s : WeatherService) (request : WeatherRequest) :
    ((handleCurrentWeather env s request).service.stats_.cache_hits = s.stats_.cache_hits + 1 ∧
      (handleCurrentWeather env s request).calls = []) ∨
    (handleCurrentWeather env s request).service.stats_.cache_hits = s.stats_.cache_hits := by
  unfold handleCurrentWeather
  by_cases hen : s.cache_enabled_ = true
  · rw [if_pos hen]
    rcases s.cache_.get (currentCacheKey request) env.tGet with ⟨hit, cache⟩
    cases hit with
    | some cached_data =>
      left
      exact ⟨rfl, rfl⟩
    | none =>
      right
      rcases fetchCurrentWeather_stats env { s with cache_ := cache } request with h | h
      · simp only [h]
      · simp only [h]
  · rw [if_neg hen]
    right
    rcases fetchCurrentWeather_stats env s request with h | h
    · simp only [h]
    · simp only [h]

theorem caught_success_iff (env : Env) (result : Except String WeatherResponse) :
    (match result with
      | .ok returned => returned
      | .error m =>
        { ({ env.freshResponse with success := false } : WeatherResponse) with
          error_message := "处理请求时出错: " ++ m }).success = true ↔
    ∃ r, result = .ok r ∧ r.success = true := by
  cases result with
  | error m => simp
  | ok r => simp

theorem hit_upstream_accounting (env : Env) (s : WeatherService) (request : WeatherRequest) :
    (((processRequest env s request).service.stats_.cache_hits = s.stats_.cache_hits ∧
        (processRequest env s request).service.stats_.api_calls = s.stats_.api_calls) ∨
      ((processRequest env s request).service.stats_.cache_hits = s.stats_.cache_hits ∧
        (processRequest env s request).service.stats_.api_calls = s.stats_.api_calls + 1) ∨
      ((processRequest env s request).service.stats_.cache_hits = s.stats_.cache_hits + 1 ∧
        (processRequest env s request).service.stats_.api_calls = s.stats_.api_calls)) ∧
    (request.type = SEARCH_CITY →
      (processRequest env s request).service.stats_.cache_hits = s.stats_.cache_hits ∧
      (processRequest env s request).service.stats_.api_calls = s.stats_.api_calls) ∧
    ((processRequest env s request).service.stats_.cache_hits = s.stats_.cache_hits + 1 →
      request.type = CURRENT_WEATHER ∧ (processRequest env s request).calls = []) ∧
    (env.uninit_success = false →
      ((processRequest env s request).service.stats_.cache_hits +
          (processRequest env s request).service.stats_.api_calls =
          s.stats_.cache_hits + s.stats_.api_calls + 1 ↔
        (processRequest env s request).response.success = true ∧
          (request.type = CURRENT_WEATHER ∨ request.type = FORECAST ∨
            request.type = GEO_LOCATION))) := by
  refine ⟨(processRequest_stats env s request).2.2, ?_, ?_, ?_⟩
  · intro htype
    rw [processRequest_search env s request htype, handleCitySearch_service]
    exact ⟨rfl, rfl⟩
  · intro hhit
    by_cases h0 : request.type = CURRENT_WEATHER
    · rw [processRequest_current env s request h0] at hhit ⊢
      rcases handleCurrentWeather_hits env s.countRequest request with ⟨_, hcalls⟩ | hsame
      · exact ⟨h0, hcalls⟩
      · exfalso
        have h1 : (handleCurrentWeather env s.countRequest request).service.stats_.cache_hits
            = s.stats_.cache_hits + 1 := hhit
        have h2 : (handleCurrentWeather env s.countRequest request).service.stats_.cache_hits
            = s.stats_.cache_hits := hsame
        omega
    · exfalso
      by_cases h1 : request.type = FORECAST
      · rw [processRequest_forecast env s request h1] at hhit
        have hh : (handleForecast env s.countRequest request).service.stats_.cache_hits
            = s.stats_.cache_hits + 1 := hhit
        rcases handleForecast_stats env s.countRequest request with h | h
        · rw [h] at hh
          have : s.countRequest.stats_.cache_hits = s.stats_.cache_hits := rfl
          omega
        · rw [h] at hh
          have : s.countRequest.stats_.cache_hits = s.stats_.cache_hits := rfl
          simp only at hh
          omega
      · by_cases h2 : request.type = SEARCH_CITY
        · rw [processRequest_search env s request h2, handleCitySearch_service] at hhit
          have hh : s.countRequest.stats_.cache_hits = s.stats_.cache_hits + 1 := hhit
          have : s.countRequest.stats_.cache_hits = s.stats_.cache_hits := rfl
          omega
        · by_cases h3 : request.type = GEO_LOCATION
          · rw [processRequest_geo env s request h3] at hhit
            have hh : (handleGeoLocation env s.countRequest request).service.stats_.cache_hits
                = s.stats_.cache_hits + 1 := hhit
            rcases handleGeoLocation_stats env s.countRequest request with h | h
            · rw [h] at hh
              have : s.countRequest.stats_.cache_hits = s.stats_.cache_hits := rfl
              omega
            · rw [h] at hh
              have : s.countRequest.stats_.cache_hits = s.stats_.cache_hits := rfl
              simp only at hh
              omega
          · rw [processRequest_unknown env s request h0 h1 h2 h3] at hhit
            have hh : s.stats_.cache_hits = s.stats_.cache_hits + 1 := hhit
            omega
  · intro hinit
    have hc : s.countRequest.stats_.cache_hits = s.stats_.cache_hits := rfl
    have ha : s.countRequest.stats_.api_calls = s.stats_.api_calls := rfl
    by_cases h0 : request.type = CURRENT_WEATHER
    · rw [processRequest_current env s request h0]
      simp only [caught_success_iff, WeatherService.addResponseTime]
      rcases handleCurrentWeather_classify env s.countRequest request hinit with
        ⟨hst, _, hr⟩ | ⟨hst, hr⟩ | ⟨hst, hr⟩
      · rw [hst]
        simp only [hc, ha]
        exact ⟨fun _ => ⟨hr, Or.inl h0⟩, fun _ => by omega⟩
      · rw [hst]
        simp only [hc, ha]
        exact ⟨fun _ => ⟨hr, Or.inl h0⟩, fun _ => by omega⟩
      · rw [hst, hc, ha]
        constructor
        · intro h
          omega
        · rintro ⟨⟨r, hres, hs⟩, _⟩
          rw [hr r hres] at hs
          cases hs
    · by_cases h1 : request.type = FORECAST
      · rw [processRequest_forecast env s request h1]
        simp only [caught_success_iff, WeatherService.addResponseTime]
        rcases handleForecast_classify env s.countRequest request hinit with
          ⟨hst, hr⟩ | ⟨hst, hr⟩
        · rw [hst]
          simp only [hc, ha]
          exact ⟨fun _ => ⟨hr, Or.inr (Or.inl h1)⟩, fun _ => by omega⟩
        · rw [hst, hc, ha]
          constructor
          · intro h
            omega
          · rintro ⟨⟨r, hres, hs⟩, _⟩
            rw [hr r hres] at hs
            cases hs
      · by_cases h2 : request.type = SEARCH_CITY
        · rw [processRequest_search env s request h2, handleCitySearch_service]
          simp only [WeatherService.addResponseTime, hc, ha]
          constructor
          · intro h
            omega
          · rintro ⟨_, h | h | h⟩
            · exact absurd h h0
            · exact absurd h h1
            · rw [h2] at h
              exact absurd h (by decide)
        · by_cases h3 : request.type = GEO_LOCATION
          · rw [processRequest_geo env s request h3]
            simp only [caught_success_iff, WeatherService.addResponseTime]
            rcases handleGeoLocation_classify env s.countRequest request hinit with
              ⟨hst, hr⟩ | ⟨hst, hr⟩
            · rw [hst]
              simp only [hc, ha]
              exact ⟨fun _ => ⟨hr, Or.inr (Or.inr h3)⟩, fun _ => by omega⟩
            · rw [hst, hc, ha]
              constructor
              · intro h
                omega
              · rintro ⟨⟨r, hres, hs⟩, _⟩
                rw [hr r hres] at hs
                cases hs
          · rw [processRequest_unknown env s request h0 h1 h2 h3]
            simp only [WeatherService.addResponseTime, hc, ha]
            constructor
            · intro h
              omega
            · rintro ⟨_, h | h | h⟩
              · exact absurd h h0
              · exact absurd h h1
              · exact absurd h h3
/-- C28. Hit and upstream accounting, evaluated on the code: a GeoLocation
request at (0, 0) on a fresh service, handled while the never-initialised
`success` member of the handler's response holds `true`.  The response of this
GeoLocation request has `success = true`, yet `cache_hits + api_calls` is not
increased by the call (both stay 0) while `total_requests` becomes 1. -/
theorem success_response_not_counted :
    originRequest.type = GEO_LOCATION ∧
    (processRequest parisEnv WeatherService.create originRequest).response.success = true ∧
    (processRequest parisEnv WeatherService.create originRequest).service.stats_.cache_hits +
        (processRequest parisEnv WeatherService.create originRequest).service.stats_.api_calls =
      WeatherService.create.stats_.cache_hits + WeatherService.create.stats_.api_calls ∧
    (processRequest parisEnv WeatherService.create originRequest).service.stats_.total_requests
      = 1 := by
  decide

end YourWeather
